import Mathlib

/-!
# dev-payment-gate: transaction lifecycle

A shallow embedding of the handlers in `api/handler/handler.go` and of the
store access layer in `utils/model/transactions/transactions.go`.

Everything outside the process (the document store, the outbound HTTP call,
the clock, the template engine) is made explicit: the state of the store is a
value that is passed through, and the outcome of each external call is an
argument of the function that makes the call.
-/

set_option autoImplicit false

namespace PaymentGate

/-! ## Identifiers (`primitive.ObjectID`) -/

/-- The lower-case digits used by `encoding/hex`. -/
def hextable : List Char :=
  ['0', '1', '2', '3', '4', '5', '6', '7', '8', '9', 'a', 'b', 'c', 'd', 'e', 'f']

/-- The digit for a nibble. -/
def hexDigit (n : Nat) : Char := hextable.getD n '0'

/-- `fromHexChar` of `encoding/hex`: both cases are accepted. -/
def fromHexChar (c : Char) : Option Nat :=
  if '0' ≤ c ∧ c ≤ '9' then some (c.toNat - '0'.toNat)
  else if 'a' ≤ c ∧ c ≤ 'f' then some (c.toNat - 'a'.toNat + 10)
  else if 'A' ≤ c ∧ c ≤ 'F' then some (c.toNat - 'A'.toNat + 10)
  else none

/-- `hex.EncodeToString`: two digits per byte, high nibble first. -/
def encodeHex : List (Fin 256) → List Char
  | [] => []
  | b :: bs => hexDigit (b.val / 16) :: hexDigit (b.val % 16) :: encodeHex bs

/-- `hex.DecodeString`: fails on an odd length and on a character that is not a
hexadecimal digit. -/
def decodeHex : List Char → Option (List (Fin 256))
  | [] => some []
  | [_] => none
  | c :: d :: cs =>
    match fromHexChar c, fromHexChar d, decodeHex cs with
    | some h, some l, some rest => some (Fin.ofNat (h * 16 + l) :: rest)
    | _, _, _ => none

/-- `len(s)` of Go: the number of bytes of the UTF-8 encoding. -/
def byteLen (s : String) : Nat := (s.data.map Char.utf8Size).sum

/-- `primitive.ObjectID` is `[12]byte`. -/
structure ObjectID where
  bytes : List (Fin 256)
  size : bytes.length = 12

instance : DecidableEq ObjectID := fun a b =>
  decidable_of_iff (a.bytes = b.bytes) (by cases a; cases b; simp)

/-- `primitive.NilObjectID`, the zero value. -/
def NilObjectID : ObjectID := ⟨List.replicate 12 0, by simp⟩

/-- `ObjectID.IsZero`. -/
def ObjectID.IsZero (id : ObjectID) : Bool := decide (id = NilObjectID)

/-- `ObjectID.Hex`. -/
def ObjectID.Hex (id : ObjectID) : String := String.mk (encodeHex id.bytes)

/-- `primitive.ObjectIDFromHex`: the string must be 24 bytes long and decode as
hexadecimal. The error value is not used by any caller, so it is `none`. -/
def ObjectIDFromHex (s : String) : Option ObjectID :=
  if byteLen s ≠ 24 then none
  else
    match decodeHex s.data with
    | none => none
    | some bs => if h : bs.length = 12 then some ⟨bs, h⟩ else none

/-! ## The data model (`utils/model/transactions`) -/

/-- A `float64`, as its IEEE-754 bit pattern. Amounts are carried, never
computed with. -/
structure Float64 where
  bits : Nat
deriving DecidableEq, Repr

/-- The value `0.0`, the zero value of `float64`. -/
def Float64.zero : Float64 := ⟨0⟩

/-- A finite `float64` that is greater than zero: sign bit clear, not zero,
below the bit pattern of `+Inf`. -/
def Float64.isPositive (f : Float64) : Bool :=
  decide (0 < f.bits) && decide (f.bits < 0x7FF0000000000000)

/-- A `time.Time`, in nanoseconds since the epoch. -/
abbrev Time := Nat

/-- Transaction represents the BSON data stored in the transaction collection. -/
structure Transaction where
  ID : ObjectID
  Amount : Float64
  WebhookURL : String
  WebhookKey : String
  RedirectURL : String
  Timestamp : Time
deriving DecidableEq

/-- TransactionInput represents the JSON data received to initialize a
transaction. -/
structure TransactionInput where
  Amount : Float64
  WebhookURL : String
  WebhookKey : String
  RedirectURL : String
deriving DecidableEq

/-- Create initializes a new transaction object; `now` is `time.Now()`. The
`ID` is left at its zero value. -/
def Create (now : Time) (input : TransactionInput) : Transaction :=
  { ID := NilObjectID
    Amount := input.Amount
    WebhookURL := input.WebhookURL
    WebhookKey := input.WebhookKey
    RedirectURL := input.RedirectURL
    Timestamp := now }

/-! ## The store -/

/-- A document of the collection, without its `_id`. -/
structure Document where
  amount : Float64
  webhook_url : String
  webhook_key : String
  redirect_url : String
  timestamp : Time
deriving DecidableEq

/-- What the store knows about one identifier. -/
inductive Slot where
  | unused
  | live (d : Document)
  | deleted
deriving DecidableEq

/-- Modelled from the spec: the package `utils/database` and the collection it
hands out are not among the sources. The spec describes an opaque key-value
store keyed by a globally unique identifier, in which an identifier is unique
across all live and historical records and the only state transition of a
record is existence to non-existence. -/
structure Store where
  slot : ObjectID → Slot

/-- The store with no record. -/
def Store.empty : Store := ⟨fun _ => Slot.unused⟩

/-- The store with the slot of one identifier replaced. -/
def Store.set (s : Store) (id : ObjectID) (v : Slot) : Store :=
  ⟨fun k => if k = id then v else s.slot k⟩

/-- The errors of the store access layer. -/
inductive StoreErr where
  | unreachable
  | duplicateKey
  | noDocuments
  | notDeleted
deriving DecidableEq, Repr

/-- BSON keeps a date as milliseconds since the epoch. -/
def bsonDateTime (t : Time) : Time := t / 1000000 * 1000000

/-- The outcome of one `InsertOne` as far as it is decided outside the
process: the store cannot be reached, or the call goes through and, where the
document has no `_id`, the driver generates `fresh` for it. -/
inductive InsertOutcome where
  | unreachable
  | reached (fresh : ObjectID)
deriving DecidableEq

/-- Modelled from the spec: `collection.InsertOne`. The field `_id` is
`omitempty`, so a transaction whose `ID` is zero is given the generated
identifier, which has to be one that was never in use; an explicit `_id`
has to differ from every live one. -/
def InsertOne (o : InsertOutcome) (s : Store) (t : Transaction) :
    Except StoreErr ObjectID × Store :=
  match o with
  | .unreachable => (.error .unreachable, s)
  | .reached fresh =>
    let doc : Document :=
      { amount := t.Amount, webhook_url := t.WebhookURL, webhook_key := t.WebhookKey,
        redirect_url := t.RedirectURL, timestamp := bsonDateTime t.Timestamp }
    if t.ID.IsZero then
      match s.slot fresh with
      | .unused => (.ok fresh, s.set fresh (.live doc))
      | _ => (.error .duplicateKey, s)
    else
      match s.slot t.ID with
      | .live _ => (.error .duplicateKey, s)
      | _ => (.ok t.ID, s.set t.ID (.live doc))

/-- Modelled from the spec: `collection.FindOne(ctx, filter).Decode`, for the
filter `_id = id`. -/
def FindOne (unreachable : Bool) (s : Store) (id : ObjectID) : Except StoreErr Transaction :=
  if unreachable then .error .unreachable
  else
    match s.slot id with
    | .live d =>
      .ok { ID := id, Amount := d.amount, WebhookURL := d.webhook_url,
            WebhookKey := d.webhook_key, RedirectURL := d.redirect_url,
            Timestamp := d.timestamp }
    | _ => .error .noDocuments

/-- Modelled from the spec: `collection.DeleteOne`, for the filter `_id = id`;
the result is `DeletedCount`. -/
def DeleteOne (unreachable : Bool) (s : Store) (id : ObjectID) : Except StoreErr Nat × Store :=
  if unreachable then (.error .unreachable, s)
  else
    match s.slot id with
    | .live _ => (.ok 1, s.set id .deleted)
    | _ => (.ok 0, s)

/-- Insert stores a transaction into the database and returns its object id.
The inserted id is always an `ObjectID`, so the type assertion of the source
cannot fail. -/
def Insert (o : InsertOutcome) (s : Store) (t : Transaction) :
    Except StoreErr ObjectID × Store :=
  match InsertOne o s t with
  | (.error e, s1) => (.error e, s1)
  | (.ok id, s1) => (.ok id, s1)

/-- GetByID retrieves a transaction from the database using the ID. -/
def GetByID (unreachable : Bool) (s : Store) (id : ObjectID) : Except StoreErr Transaction :=
  match FindOne unreachable s id with
  | .error e => .error e
  | .ok t => .ok t

/-- Delete removes a transaction from the database. -/
def Delete (unreachable : Bool) (s : Store) (id : ObjectID) : Except StoreErr Unit × Store :=
  match DeleteOne unreachable s id with
  | (.error e, s1) => (.error e, s1)
  | (.ok n, s1) => if n = 0 then (.error .notDeleted, s1) else (.ok (), s1)

/-! ## JSON bodies (`encoding/json`) -/

/-- A JSON value as the decoder sees it. A number carries the `float64` that
`strconv.ParseFloat` gives for its literal, or `none` where the literal is out
of range. -/
inductive Json where
  | null
  | bool (b : Bool)
  | number (f : Option Float64)
  | string (s : String)
  | array (xs : List Json)
  | object (members : List (String × Json))

mutual
/-- How deep the arrays and objects of a value are nested: 0 for a value that
is neither, 1 for an array or an object that holds none. -/
def Json.depth : Json → Nat
  | .array xs => Json.depthOfList xs + 1
  | .object members => Json.depthOfMembers members + 1
  | _ => 0
/-- The greatest depth among the elements of an array. -/
def Json.depthOfList : List Json → Nat
  | [] => 0
  | x :: xs => max x.depth (Json.depthOfList xs)
/-- The greatest depth among the values of the members of an object. -/
def Json.depthOfMembers : List (String × Json) → Nat
  | [] => 0
  | (_, v) :: members => max v.depth (Json.depthOfMembers members)
end

/-- `maxNestingDepth` of `encoding/json`: the scanner gives up with "exceeded
max depth" on a value whose arrays and objects are nested deeper. -/
def maxNestingDepth : Nat := 10000

/-- Case folding of one character of a key, as far as it can reach an ASCII
letter: the upper-case letters, the Kelvin sign and the long s. -/
def foldChar (c : Char) : Char :=
  if 'A' ≤ c ∧ c ≤ 'Z' then Char.ofNat (c.toNat + 32)
  else if c = Char.ofNat 0x212A then 'k'
  else if c = Char.ofNat 0x017F then 's'
  else c

/-- Whether a key of the body names the field with the given (lower-case) JSON
name: an exact match, or a match under case folding. -/
def keyMatches (name key : String) : Bool :=
  decide (key = name) || decide (key.data.map foldChar = name.data)

/-- The decoder stores a value into a `float64` field: `null` leaves the field
as it is, a number in range is stored, everything else is a type error. -/
def storeFloat (old : Float64) : Json → Option Float64
  | .null => some old
  | .number (some f) => some f
  | _ => none

/-- The decoder stores a value into a `string` field: `null` leaves the field
as it is, a string is stored, everything else is a type error. -/
def storeString (old : String) : Json → Option String
  | .null => some old
  | .string s => some s
  | _ => none

/-- One member of a JSON object is stored into the struct; the flag is false
once a type error has been saved. A key that names no field is skipped. -/
def storeMember (acc : TransactionInput × Bool) (m : String × Json) : TransactionInput × Bool :=
  let input := acc.1
  if keyMatches "amount" m.1 then
    match storeFloat input.Amount m.2 with
    | some f => ({ input with Amount := f }, acc.2)
    | none => (input, false)
  else if keyMatches "webhook_url" m.1 then
    match storeString input.WebhookURL m.2 with
    | some v => ({ input with WebhookURL := v }, acc.2)
    | none => (input, false)
  else if keyMatches "webhook_key" m.1 then
    match storeString input.WebhookKey m.2 with
    | some v => ({ input with WebhookKey := v }, acc.2)
    | none => (input, false)
  else if keyMatches "redirect_url" m.1 then
    match storeString input.RedirectURL m.2 with
    | some v => ({ input with RedirectURL := v }, acc.2)
    | none => (input, false)
  else acc

/-- The zero value of `TransactionInput`. -/
def TransactionInput.zero : TransactionInput :=
  { Amount := Float64.zero, WebhookURL := "", WebhookKey := "", RedirectURL := "" }

/-- `json.NewDecoder(r.Body).Decode(&transactionInput)` for a zero
`transactionInput`. The body is `none` when it cannot be read or does not
start with a JSON value. The scanner reads the whole value first and rejects
one that is nested deeper than `maxNestingDepth`. Then `null` decodes to the
zero value, an object is stored member by member, any other value is a type
error. -/
def Decode (body : Option Json) : Option TransactionInput :=
  match body with
  | none => none
  | some v =>
    if maxNestingDepth < v.depth then none
    else
      match v with
      | .null => some TransactionInput.zero
      | .object members =>
        match members.foldl storeMember (TransactionInput.zero, true) with
        | (input, true) => some input
        | (_, false) => none
      | _ => none

/-! ## Requests and responses (`net/http`) -/

/-- A header map. -/
abbrev HeaderMap := List (String × String)

/-- `Header.Get`: the value of the key, or the empty string. -/
def HeaderMap.Get (h : HeaderMap) (key : String) : String :=
  match h.lookup key with
  | some v => v
  | none => ""

/-- `Header.Set`: the key has the given value and no other. -/
def HeaderMap.Set (h : HeaderMap) (key value : String) : HeaderMap :=
  (key, value) :: h.filter (fun kv => kv.1 ≠ key)

/-- The parts of `http.Request` that the handlers read. `Vars` are the route
variables of `mux.Vars`. -/
structure Request where
  Method : String
  RequestURI : String
  Host : String
  Header : HeaderMap
  Body : Option Json
  Vars : List (String × String)

/-- Reads a route variable, as `mux.Vars(r)[name]` does: the empty string when
there is none. -/
def Request.Var (r : Request) (name : String) : String :=
  match r.Vars.lookup name with
  | some v => v
  | none => ""

/-- The data a template is executed with. -/
inductive TemplateData where
  | page (Amount : Float64) (ID : String)
  | script (ID : String)
deriving DecidableEq

/-- One write to the response body. -/
inductive Chunk where
  | line (text : String)
  | jsonMap (members : List (String × String))
  | rendered (text : String)
deriving DecidableEq

/-- A `http.ResponseWriter`: the header map, the status and header snapshot
fixed by the first `WriteHeader`, and the body written so far. -/
structure ResponseWriter where
  Header : HeaderMap
  wrote : Option (Nat × HeaderMap)
  Body : List Chunk
deriving DecidableEq

/-- A writer nothing was written to. -/
def ResponseWriter.fresh : ResponseWriter := { Header := [], wrote := none, Body := [] }

/-- `w.Header().Set(key, value)`. -/
def ResponseWriter.SetHeader (w : ResponseWriter) (key value : String) : ResponseWriter :=
  { w with Header := w.Header.Set key value }

/-- `w.WriteHeader(code)`: only the first call counts. -/
def ResponseWriter.WriteHeader (w : ResponseWriter) (code : Nat) : ResponseWriter :=
  match w.wrote with
  | some _ => w
  | none => { w with wrote := some (code, w.Header) }

/-- `w.Write`: writes the header with status 200 if it was not written. -/
def ResponseWriter.Write (w : ResponseWriter) (c : Chunk) : ResponseWriter :=
  let w1 := w.WriteHeader 200
  { w1 with Body := w1.Body ++ [c] }

/-- The status the client receives. -/
def ResponseWriter.Code (w : ResponseWriter) : Nat :=
  match w.wrote with
  | some (code, _) => code
  | none => 200

/-- The headers the client receives. -/
def ResponseWriter.Sent (w : ResponseWriter) : HeaderMap :=
  match w.wrote with
  | some (_, h) => h
  | none => w.Header

/-- `http.Error`. -/
def httpError (w : ResponseWriter) (msg : String) (code : Nat) : ResponseWriter :=
  (((w.SetHeader "Content-Type" "text/plain; charset=utf-8").SetHeader
    "X-Content-Type-Options" "nosniff").WriteHeader code).Write (.line msg)

def StatusOK : Nat := 200
def StatusCreated : Nat := 201
def StatusSeeOther : Nat := 303
def StatusBadRequest : Nat := 400
def StatusUnauthorized : Nat := 401
def StatusNotFound : Nat := 404
def StatusInternalServerError : Nat := 500

/-! ## Templates (`web/templates`) -/

/-- What executing a template does: the pieces it writes, in order, and whether
it ends in an error. -/
structure RenderResult where
  written : List String
  failed : Bool
deriving DecidableEq

/-- A parsed template set: executing the template of a given name with given
data. -/
abbrev Template := String → TemplateData → RenderResult

/-- Templates struct to store parsed templates. -/
structure Templates where
  HTML : Template
  JS : Template

/-- `ExecuteTemplate(w, name, data)`: the output goes to the writer piece by
piece; the result is the writer and whether an error is returned. -/
def ExecuteTemplate (tpl : Template) (w : ResponseWriter) (templateName : String)
    (data : TemplateData) : ResponseWriter × Bool :=
  let res := tpl templateName data
  (res.written.foldl (fun acc piece => acc.Write (.rendered piece)) w, res.failed)

/-- RenderHTML inserts data into an HTML template and writes the result to the
response. -/
def RenderHTML (t : Templates) (w : ResponseWriter) (templateName : String)
    (data : TemplateData) : ResponseWriter × Bool :=
  ExecuteTemplate t.HTML w templateName data

/-- RenderJS inserts data into a JavaScript template and writes the result to
the response. -/
def RenderJS (t : Templates) (w : ResponseWriter) (templateName : String)
    (data : TemplateData) : ResponseWriter × Bool :=
  ExecuteTemplate t.JS w templateName data

/-! ## The outbound call -/

/-- The context a request is bound to. -/
inductive Context where
  | background
  | inbound
deriving DecidableEq, Repr

/-- The JSON encoding of an object with string members, kept as its members. -/
abbrev JsonMap := List (String × String)

/-- An outbound `http.Request`. -/
structure OutboundRequest where
  Method : String
  URL : String
  Header : HeaderMap
  Body : JsonMap
  Ctx : Context
deriving DecidableEq

/-- StatusData holds the data for a transaction. -/
structure StatusData where
  Status : String
deriving DecidableEq

/-- `json.Marshal` of a `StatusData`: the field is tagged `status`. Encoding a
struct with one string field never fails. -/
def Marshal (d : StatusData) : Option JsonMap := some [("status", d.Status)]

/-- `stringContainsCTLByte` of `net/url`: a byte below 0x20 or the byte 0x7f. In
UTF-8 these bytes occur only as the characters of the same code. -/
def stringContainsCTLByte (s : List Char) : Bool :=
  s.any (fun c => decide (c.toNat < 0x20) || decide (c.toNat = 0x7f))

/-- What is fixed for the life of the process: the configured API key, the
loaded templates, and the part of `url.Parse` that is not modelled (everything
but its first check). -/
structure Env where
  API_KEY : String
  t : Templates
  urlParse : String → Bool

/-- `http.NewRequest(method, url, body)` for a valid method: it fails exactly
when `url.Parse` fails. `url.Parse` cuts the fragment off, rejects a control
character in what is left, and then goes on parsing. The request is bound to
the background context. -/
def NewRequest (env : Env) (method url : String) (body : JsonMap) : Option OutboundRequest :=
  if stringContainsCTLByte (url.data.takeWhile (fun c => c ≠ '#')) then none
  else if env.urlParse url then
    some { Method := method, URL := url, Header := [], Body := body, Ctx := .background }
  else none

/-- The answers of the network to the requests of one `httpClient.Do`: the
request fails in transport; or it is answered with a status and nothing to
follow (for a redirect status: no Location header); or it is answered with a
status and a Location header, which resolves to `Location` unless it does not
parse, and `next` holds the answers to the request the client then sends, if it
sends one. -/
inductive WebhookOutcome where
  | transportError
  | response (StatusCode : Nat)
  | redirect (StatusCode : Nat) (Location : Option String) (next : WebhookOutcome)
deriving DecidableEq, Repr

/-- A request as the client puts it on the wire: the method, the address, and
the body if there is one. The headers, which the client copies from the first
request or drops depending on the address it is redirected to, are not part of
it. -/
structure Sent where
  Method : String
  URL : String
  Body : Option JsonMap
deriving DecidableEq, Repr

/-- What `httpClient.Do` returns to its caller: an error, or the last
response. -/
inductive DoResult where
  | err
  | resp (StatusCode : Nat)
deriving DecidableEq, Repr

/-- The redirect loop of `http.Client` with the default policy, after `n`
requests were sent, the last of them with the given method. A 301, 302 or 303
is followed with a GET (a HEAD stays a HEAD) and no body, a 307 or 308 with the
same method and the body of the first request again (the body is a
`bytes.Buffer`, so the client can read it again). A Location that does not
parse and a redirect after 10 requests end the call with an error. The result
is the requests sent to follow redirects and what the caller gets. -/
def followRedirects (body : JsonMap) : Nat → String → WebhookOutcome → List Sent × DoResult
  | _, _, .transportError => ([], .err)
  | _, _, .response StatusCode => ([], .resp StatusCode)
  | n, method, .redirect StatusCode Location next =>
    if StatusCode = 301 ∨ StatusCode = 302 ∨ StatusCode = 303 ∨ StatusCode = 307 ∨
        StatusCode = 308 then
      match Location with
      | none => ([], .err)
      | some u =>
        if 10 ≤ n then ([], .err)
        else
          let includeBody : Bool := decide (StatusCode = 307 ∨ StatusCode = 308)
          let redirectMethod :=
            if includeBody then method
            else if method ≠ "GET" ∧ method ≠ "HEAD" then "GET"
            else method
          let rest := followRedirects body (n + 1) redirectMethod next
          ({ Method := redirectMethod, URL := u,
             Body := if includeBody then some body else none } :: rest.1, rest.2)
    else ([], .resp StatusCode)

/-- `httpClient.Do(req)` for the client that PostTransaction builds, which
keeps the default redirect policy: the requests put on the wire, the first of
which is `req`, and what the caller gets. -/
def Do (req : OutboundRequest) (answers : WebhookOutcome) : List Sent × DoResult :=
  let rest := followRedirects req.Body 1 req.Method answers
  ({ Method := req.Method, URL := req.URL, Body := some req.Body } :: rest.1, rest.2)

/-! ## Handlers (`api/handler`) -/

/-- The outcomes of the external calls of one handler invocation. -/
structure Outcomes where
  now : Time
  insert : InsertOutcome
  findUnreachable : Bool
  deleteUnreachable : Bool
  webhook : WebhookOutcome

/-- A call that leaves the process. An `httpDo` is one call of `httpClient.Do`;
the client may put several requests on the wire in its course, which
`wireRequests` lists. -/
inductive Effect where
  | insertOne (t : Transaction)
  | findOne (id : ObjectID)
  | deleteOne (id : ObjectID)
  | httpDo (req : OutboundRequest) (insecureSkipVerify : Bool)
deriving DecidableEq

/-- A line of the log. -/
inductive LogEntry where
  | status (code : Nat) (method uri message : String)
  | warning (id : String) (err : StoreErr)
deriving DecidableEq

/-- What one handler invocation leaves behind. -/
structure Result where
  store : Store
  w : ResponseWriter
  effects : List Effect
  logs : List LogEntry

/-- The status of the response. -/
def Result.status (res : Result) : Nat := res.w.Code

/-- The content type of the response. -/
def Result.contentType (res : Result) : String := res.w.Sent.Get "Content-Type"

/-- The body of the response. -/
def Result.body (res : Result) : List Chunk := res.w.Body

/-- logStatus prints a colored log with its HTTP status code. -/
def logStatus (r : Request) (status : Nat) (message : String) : LogEntry :=
  .status status r.Method r.RequestURI message

/-- CreateTransaction creates a transaction inside the database and returns the
transaction url. -/
def CreateTransaction (env : Env) (o : Outcomes) (s : Store) (r : Request) : Result :=
  if r.Header.Get "Authorization" ≠ "Bearer " ++ env.API_KEY then
    { store := s
      w := httpError ResponseWriter.fresh "Unauthorized" StatusUnauthorized
      effects := []
      logs := [logStatus r StatusUnauthorized "Unauthorized"] }
  else
    match Decode r.Body with
    | none =>
      { store := s
        w := httpError ResponseWriter.fresh "Invalid JSON input" StatusBadRequest
        effects := []
        logs := [logStatus r StatusBadRequest "Invalid JSON input"] }
    | some transactionInput =>
      let transaction := Create o.now transactionInput
      match Insert o.insert s transaction with
      | (.error _, s1) =>
        { store := s1
          w := httpError ResponseWriter.fresh "Failed to insert transaction"
            StatusInternalServerError
          effects := [.insertOne transaction]
          logs := [logStatus r StatusInternalServerError "Failed to insert transaction"] }
      | (.ok id, s1) =>
        let transactionURL := "http://" ++ r.Host ++ "/transaction/" ++ id.Hex
        { store := s1
          w := ((ResponseWriter.fresh.SetHeader "Content-Type" "application/json").WriteHeader
            StatusCreated).Write (.jsonMap [("url", transactionURL)])
          effects := [.insertOne transaction]
          logs := [logStatus r StatusCreated "Transaction Initialized"] }

/-- redirectUser responds to the request with a redirect url. -/
def redirectUser (w : ResponseWriter) (url : String) : ResponseWriter :=
  ((w.SetHeader "Content-Type" "application/json").WriteHeader StatusSeeOther).Write
    (.jsonMap [("url", url)])

/-- The part of PostTransaction that runs between the registration of the
deferred deletion and the return: the response, the outbound calls and the log
lines. -/
def PostTransaction.notify (env : Env) (o : Outcomes) (r : Request) (transaction : Transaction) :
    ResponseWriter × List Effect × List LogEntry :=
  let statusData : StatusData := { Status := "Success" }
  match Marshal statusData with
  | none =>
    (httpError ResponseWriter.fresh "Failed to create update request body"
        StatusInternalServerError, [],
      [logStatus r StatusInternalServerError "Failed to create update request body"])
  | some data =>
    match NewRequest env "POST" transaction.WebhookURL data with
    | none =>
      (httpError ResponseWriter.fresh "Failed to construct update request"
          StatusInternalServerError, [],
        [logStatus r StatusInternalServerError "Failed to construct update request"])
    | some req0 =>
      let req : OutboundRequest :=
        { req0 with
          Header := (req0.Header.Set "Content-Type" "application/json").Set "Authorization"
            ("Bearer " ++ transaction.WebhookKey) }
      match (Do req o.webhook).2 with
      | .err =>
        (redirectUser ResponseWriter.fresh transaction.RedirectURL, [.httpDo req true],
          [logStatus r StatusSeeOther "Could not reach webhook"])
      | .resp StatusCode =>
        if 200 ≤ StatusCode ∧ StatusCode < 300 then
          (redirectUser ResponseWriter.fresh transaction.RedirectURL, [.httpDo req true],
            [logStatus r StatusSeeOther "Transaction Completed"])
        else
          (redirectUser ResponseWriter.fresh transaction.RedirectURL, [.httpDo req true],
            [logStatus r StatusCode "Source returned error"])

/-- PostTransaction handles the payment and callback. The deletion is deferred:
it runs after `PostTransaction.notify`, whatever that did. -/
def PostTransaction (env : Env) (o : Outcomes) (s : Store) (r : Request) : Result :=
  match ObjectIDFromHex (r.Var "transaction_id") with
  | none =>
    { store := s
      w := httpError ResponseWriter.fresh "Incorrect URI" StatusBadRequest
      effects := []
      logs := [logStatus r StatusBadRequest "Incorrect URI"] }
  | some id =>
    match GetByID o.findUnreachable s id with
    | .error _ =>
      { store := s
        w := httpError ResponseWriter.fresh "Failed to get transaction" StatusBadRequest
        effects := [.findOne id]
        logs := [logStatus r StatusBadRequest "Failed to get transaction"] }
    | .ok transaction =>
      let out := PostTransaction.notify env o r transaction
      let del := Delete o.deleteUnreachable s transaction.ID
      { store := del.2
        w := out.1
        effects := .findOne id :: out.2.1 ++ [.deleteOne transaction.ID]
        logs := out.2.2 ++
          (match del.1 with
           | .error e => [.warning transaction.ID.Hex e]
           | .ok _ => []) }

/-- GetTransactionHTML renders the HTML for the transaction page. -/
def GetTransactionHTML (env : Env) (o : Outcomes) (s : Store) (r : Request) : Result :=
  match ObjectIDFromHex (r.Var "transaction_id") with
  | none =>
    { store := s
      w := httpError ResponseWriter.fresh "Incorrect URI" StatusBadRequest
      effects := []
      logs := [logStatus r StatusBadRequest "Incorrect URI"] }
  | some id =>
    match GetByID o.findUnreachable s id with
    | .error _ =>
      { store := s
        w := httpError ResponseWriter.fresh "Failed to get transaction" StatusBadRequest
        effects := [.findOne id]
        logs := [logStatus r StatusBadRequest "Failed to get transaction"] }
    | .ok transaction =>
      let data := TemplateData.page transaction.Amount transaction.ID.Hex
      let w1 := ResponseWriter.fresh.SetHeader "Content-Type" "text/html"
      match RenderHTML env.t w1 "transaction.html" data with
      | (w2, true) =>
        { store := s
          w := httpError w2 "Failed to render HTML template" StatusInternalServerError
          effects := [.findOne id]
          logs := [logStatus r StatusInternalServerError "Failed to render HTML template"] }
      | (w2, false) =>
        { store := s
          w := w2
          effects := [.findOne id]
          logs := [logStatus r StatusOK "Served HTML template"] }

/-- GetTransactionJS renders the JS for the transaction page. -/
def GetTransactionJS (env : Env) (o : Outcomes) (s : Store) (r : Request) : Result :=
  match ObjectIDFromHex (r.Var "transaction_id") with
  | none =>
    { store := s
      w := httpError ResponseWriter.fresh "Incorrect URI" StatusBadRequest
      effects := []
      logs := [logStatus r StatusBadRequest "Incorrect URI"] }
  | some id =>
    match GetByID o.findUnreachable s id with
    | .error _ =>
      { store := s
        w := httpError ResponseWriter.fresh "Failed to get transaction" StatusBadRequest
        effects := [.findOne id]
        logs := [logStatus r StatusBadRequest "Failed to get transaction"] }
    | .ok transaction =>
      let data := TemplateData.script transaction.ID.Hex
      let w1 := ResponseWriter.fresh.SetHeader "Content-Type" "application/javascript"
      match RenderJS env.t w1 "transaction.js" data with
      | (w2, true) =>
        { store := s
          w := httpError w2 "Failed to render JS template" StatusInternalServerError
          effects := [.findOne id]
          logs := [logStatus r StatusInternalServerError "Failed to render JS template"] }
      | (w2, false) =>
        { store := s
          w := w2
          effects := [.findOne id]
          logs := [logStatus r StatusOK "Served Javascript template"] }

/-- The requests that the outbound calls among some external calls put on the
wire, given the answers of the network: each `httpClient.Do` with the requests
the client sends in its course. -/
def wireRequests (answers : WebhookOutcome) : List Effect → List Sent
  | [] => []
  | .httpDo req _ :: rest => (Do req answers).1 ++ wireRequests answers rest
  | _ :: rest => wireRequests answers rest

/-! ## Sequences of requests -/

/-- The four handlers the router dispatches to. -/
inductive Endpoint where
  | create
  | post
  | html
  | js
deriving DecidableEq, Repr

/-- One request as it is served: the endpoint, the request, and the outcomes of
the external calls made while serving it. -/
structure Invocation where
  endpoint : Endpoint
  o : Outcomes
  r : Request

/-- Serves one request. -/
def serve (env : Env) (s : Store) (i : Invocation) : Result :=
  match i.endpoint with
  | .create => CreateTransaction env i.o s i.r
  | .post => PostTransaction env i.o s i.r
  | .html => GetTransactionHTML env i.o s i.r
  | .js => GetTransactionJS env i.o s i.r

/-- Serves requests one after the other; the result is the final store. -/
def run (env : Env) (s : Store) : List Invocation → Store
  | [] => s
  | i :: rest => run env (serve env s i).store rest

/-- Serves requests one after the other; the result is the list of responses. -/
def responses (env : Env) (s : Store) : List Invocation → List Result
  | [] => []
  | i :: rest => serve env s i :: responses env (serve env s i).store rest

/-! ## Well-formed identifier strings -/

/-- A well-formed identifier string: 24 hexadecimal digits. -/
def IsHexID (s : String) : Prop :=
  s.data.length = 24 ∧ ∀ c ∈ s.data, (fromHexChar c).isSome = true

instance (s : String) : Decidable (IsHexID s) := by unfold IsHexID; infer_instance

/-! ## Sample data -/

/-- An identifier. -/
def sampleID : ObjectID := ⟨[101, 74, 27, 44, 61, 78, 95, 106, 123, 140, 157, 174], by decide⟩

/-- Another identifier. -/
def otherID : ObjectID := ⟨[101, 74, 27, 44, 61, 78, 95, 106, 123, 140, 157, 175], by decide⟩

/-- The amount 4.95. -/
def sampleAmount : Float64 := ⟨0x4013CCCCCCCCCCCD⟩

/-- A process whose API key is `secret`, whose templates render without error
and in which every address without a control character parses. -/
def sampleEnv : Env :=
  { API_KEY := "secret"
    t := { HTML := fun _ _ => ⟨["<html></html>"], false⟩, JS := fun _ _ => ⟨["void 0;"], false⟩ }
    urlParse := fun _ => true }

/-- The record of the scenario of the spec. -/
def sampleDoc : Document :=
  { amount := sampleAmount
    webhook_url := "https://merchant.example/hook"
    webhook_key := "k"
    redirect_url := "https://shop.example/done"
    timestamp := 0 }

/-- A record whose webhook address ends in a line feed. -/
def lineFeedDoc : Document := { sampleDoc with webhook_url := "https://merchant.example/hook\n" }

/-- A store that holds `sampleDoc` under `sampleID`. -/
def sampleStore : Store := Store.empty.set sampleID (.live sampleDoc)

/-- A store that holds `lineFeedDoc` under `sampleID`. -/
def lineFeedStore : Store := Store.empty.set sampleID (.live lineFeedDoc)

/-- Every external call goes through; the webhook answers 200. -/
def sampleOutcomes : Outcomes :=
  { now := 1700000000000000000
    insert := .reached sampleID
    findUnreachable := false
    deleteUnreachable := false
    webhook := .response 200 }

/-- A request for `sampleID` that carries the API key of `sampleEnv` and an
empty JSON object. -/
def sampleRequest : Request :=
  { Method := "POST"
    RequestURI := "/transaction/654a1b2c3d4e5f6a7b8c9dae"
    Host := "example.com"
    Header := [("Authorization", "Bearer secret")]
    Body := some (.object [])
    Vars := [("transaction_id", "654a1b2c3d4e5f6a7b8c9dae")] }

/-! ## Malformed bodies -/

/-- A JSON value that a `float64` field accepts: `null` or a number in range. -/
def Json.fitsFloat : Json → Bool
  | .null => true
  | .number (some _) => true
  | _ => false

/-- A JSON value that a `string` field accepts: `null` or a string. -/
def Json.fitsString : Json → Bool
  | .null => true
  | .string _ => true
  | _ => false

/-- A member of the body whose key names a field of `TransactionInput` and
whose value that field does not accept. -/
def badMember (m : String × Json) : Bool :=
  if keyMatches "amount" m.1 then !m.2.fitsFloat
  else if keyMatches "webhook_url" m.1 then !m.2.fitsString
  else if keyMatches "webhook_key" m.1 then !m.2.fitsString
  else if keyMatches "redirect_url" m.1 then !m.2.fitsString
  else false

/-- Whether a JSON value has the wrong shape for a `TransactionInput`: it is
neither `null` nor an object, or it is an object with a member whose key names
a field and whose value has the wrong type for it. -/
def wrongShape : Json → Prop
  | .null => False
  | .object members => ∃ m ∈ members, badMember m = true
  | _ => True

/-- The bodies the decoder rejects, in words: the body is not a JSON value, or
it is nested deeper than the decoder allows, or it has the wrong shape. -/
def UndecodableBody : Option Json → Prop
  | none => True
  | some v => maxNestingDepth < v.depth ∨ wrongShape v

/-- An authorized creation request whose body is the object with the one
member `amount`, whose value is -1. -/
def negativeAmountRequest : Request :=
  { Method := "POST"
    RequestURI := "/transaction"
    Host := "example.com"
    Header := [("Authorization", "Bearer secret")]
    Body := some (.object [("amount", .number (some ⟨0xBFF0000000000000⟩))])
    Vars := [] }

/-- A creation request whose Authorization header has a blank too many. -/
def wrongKeyRequest : Request :=
  { sampleRequest with Header := [("Authorization", "Bearer  secret")] }

/-- A creation request whose body is a JSON string. -/
def stringBodyRequest : Request := { sampleRequest with Body := some (.string "amount") }

/-- A request whose identifier is one digit short. -/
def shortIDRequest : Request :=
  { sampleRequest with Vars := [("transaction_id", "654a1b2c3d4e5f6a7b8c9da")] }

/-- The input of the scenario of the spec. -/
def sampleInput : TransactionInput :=
  { Amount := sampleAmount
    WebhookURL := "https://merchant.example/hook"
    WebhookKey := "k"
    RedirectURL := "https://shop.example/done" }

/-! ## Splitting a string -/

/-- `strings.Split(s, sep)` for a separator of one character: the pieces of `s`
between the occurrences of the separator, one more than there are
occurrences. -/
def Split (sep : Char) : List Char → List (List Char)
  | [] => [[]]
  | c :: cs =>
    if c = sep then [] :: Split sep cs
    else
      match Split sep cs with
      | [] => [[c]]
      | piece :: rest => (c :: piece) :: rest

/-- A creation request with the API key of `sampleEnv` and the body of the
scenario of the spec. -/
def createRequest : Request :=
  { Method := "POST"
    RequestURI := "/transaction"
    Host := "pay.example:8080"
    Header := [("Authorization", "Bearer secret")]
    Body := some (.object
      [("amount", .number (some sampleAmount)),
       ("webhook_url", .string "https://merchant.example/hook"),
       ("webhook_key", .string "k"),
       ("redirect_url", .string "https://shop.example/done")])
    Vars := [] }

/-- A later request for the page of `sampleID`. -/
def pageCall : Invocation :=
  { endpoint := .html, o := sampleOutcomes, r := { sampleRequest with Method := "GET" } }

/-- A later request for the script of `sampleID`. -/
def scriptCall : Invocation :=
  { endpoint := .js, o := sampleOutcomes, r := { sampleRequest with Method := "GET" } }

/-- A later creation request for which the driver generates `sampleID` again. -/
def createCall : Invocation :=
  { endpoint := .create, o := sampleOutcomes, r := createRequest }

/-- A later completion request for `sampleID`. -/
def postCall : Invocation :=
  { endpoint := .post, o := sampleOutcomes, r := sampleRequest }

/-! ## Contexts and cancellation -/

/-- Whether a context is done, given whether the inbound request has been
cancelled or has timed out. The background context is never done. -/
def Context.done (c : Context) (inboundDone : Bool) : Bool :=
  match c with
  | .background => false
  | .inbound => inboundDone

/-- Whether `httpClient.Do` gives a call up on account of its context: it does
when the context of the request is done. The client that PostTransaction builds
sets no timeout of its own. -/
def OutboundRequest.aborted (req : OutboundRequest) (inboundDone : Bool) : Bool :=
  req.Ctx.done inboundDone

/-- A process like `sampleEnv` whose templates fail before they write. -/
def failingEnv : Env :=
  { API_KEY := "secret"
    t := { HTML := fun _ _ => ⟨[], true⟩, JS := fun _ _ => ⟨[], true⟩ }
    urlParse := fun _ => true }

/-- Outcomes like `sampleOutcomes`, with a store that cannot be reached. -/
def unreachableOutcomes : Outcomes :=
  { sampleOutcomes with
    insert := .unreachable, findUnreachable := true, deleteUnreachable := true }

/-! ## Two completions at once -/

/-- Where one PostTransaction call stands between its calls to the store: it
has not looked the record up yet, it has found it, it has written its response
and has the deferred deletion left to run, or it has returned. What has been
written, called and logged so far is carried along. -/
inductive PostPhase where
  | start
  | found (id : ObjectID) (transaction : Transaction)
  | responded (transaction : Transaction) (w : ResponseWriter) (effects : List Effect)
      (logs : List LogEntry)
  | returned (w : ResponseWriter) (effects : List Effect) (logs : List LogEntry)

/-- One step of a PostTransaction call: from `start`, the parsing of the
identifier and the lookup; from `found`, the outbound call and the response;
from `responded`, the deferred deletion. Each call to the store is one step. -/
def PostTransaction.step (env : Env) (o : Outcomes) (r : Request) (s : Store) :
    PostPhase → Store × PostPhase
  | .start =>
    match ObjectIDFromHex (r.Var "transaction_id") with
    | none =>
      (s, .returned (httpError ResponseWriter.fresh "Incorrect URI" StatusBadRequest) []
        [logStatus r StatusBadRequest "Incorrect URI"])
    | some id =>
      match GetByID o.findUnreachable s id with
      | .error _ =>
        (s, .returned (httpError ResponseWriter.fresh "Failed to get transaction"
          StatusBadRequest) [.findOne id]
          [logStatus r StatusBadRequest "Failed to get transaction"])
      | .ok transaction => (s, .found id transaction)
  | .found id transaction =>
    let out := PostTransaction.notify env o r transaction
    (s, .responded transaction out.1 (.findOne id :: out.2.1) out.2.2)
  | .responded transaction w effects logs =>
    let del := Delete o.deleteUnreachable s transaction.ID
    (del.2, .returned w (effects ++ [.deleteOne transaction.ID])
      (logs ++
        (match del.1 with
         | .error e => [.warning transaction.ID.Hex e]
         | .ok _ => [])))
  | .returned w effects logs => (s, .returned w effects logs)

/-- The response of a call that has returned. -/
def PostPhase.response : PostPhase → Option ResponseWriter
  | .returned w _ _ => some w
  | _ => none

/-- The external calls a call has made so far. -/
def PostPhase.effects : PostPhase → List Effect
  | .start => []
  | .found id _ => [.findOne id]
  | .responded _ _ effects _ => effects
  | .returned _ effects _ => effects

/-- Two PostTransaction calls, A and B, in progress on one store. -/
structure Race where
  store : Store
  a : PostPhase
  b : PostPhase

/-- Which of the two calls takes the next step. -/
inductive Turn where
  | A
  | B
deriving DecidableEq, Repr

/-- The call whose turn it is takes one step. -/
def Race.step (env : Env) (oA oB : Outcomes) (rA rB : Request) (st : Race) : Turn → Race
  | .A =>
    let next := PostTransaction.step env oA rA st.store st.a
    { store := next.1, a := next.2, b := st.b }
  | .B =>
    let next := PostTransaction.step env oB rB st.store st.b
    { store := next.1, a := st.a, b := next.2 }

/-- The two calls take their steps in the order of the schedule. -/
def Race.run (env : Env) (oA oB : Outcomes) (rA rB : Request) (st : Race)
    (schedule : List Turn) : Race :=
  schedule.foldl (Race.step env oA oB rA rB) st

/-- The schedule in which both calls look the record up before either deletes
it: lookup of A, lookup of B, then the rest of A, then the rest of B. -/
def lookupsFirst : List Turn := [.A, .B, .A, .A, .B, .B]

/-- How many outbound calls there are among some external calls. -/
def countHttpDo (effects : List Effect) : Nat :=
  (effects.filter (fun e => match e with
    | .httpDo _ _ => true
    | _ => false)).length

/-- The record `sampleDoc` with another webhook address, another webhook key
and another time of creation. -/
def otherWebhookDoc : Document :=
  { sampleDoc with
    webhook_url := "https://hooks.example/notify", webhook_key := "other-key",
    timestamp := 1700000000123000000 }

/-- A store that holds `otherWebhookDoc` under `sampleID`. -/
def otherWebhookStore : Store := Store.empty.set sampleID (.live otherWebhookDoc)

/-- The outcomes `sampleOutcomes`, except that the webhook answers the first
request with 307 and a Location that resolves to another address, and the
request to that address with 200. -/
def redirectOutcomes : Outcomes :=
  { sampleOutcomes with
    webhook := .redirect 307 (some "https://merchant.example/moved") (.response 200) }

/-- The outcomes `sampleOutcomes`, except that the webhook answers the first
request with 302 and a Location that resolves to another address, and the
request to that address with 500. -/
def foundOutcomes : Outcomes :=
  { sampleOutcomes with
    webhook := .redirect 302 (some "https://merchant.example/moved") (.response 500) }

end PaymentGate

namespace PaymentGate

/-! ## Identifier strings -/

theorem fromHexChar_hexDigit (n : Nat) (h : n < 16) : fromHexChar (hexDigit n) = some n := by
  interval_cases n <;> decide

theorem utf8Size_hexDigit (n : Nat) (h : n < 16) : (hexDigit n).utf8Size = 1 := by
  interval_cases n <;> decide

theorem decodeHex_encodeHex (bs : List (Fin 256)) : decodeHex (encodeHex bs) = some bs := by
  induction bs with
  | nil => rfl
  | cons b bs ih =>
    have h1 : b.val / 16 < 16 := by omega
    have h2 : b.val % 16 < 16 := by omega
    simp only [encodeHex, decodeHex, fromHexChar_hexDigit _ h1, fromHexChar_hexDigit _ h2, ih]
    congr 2
    apply Fin.ext
    simp [Fin.ofNat]
    omega

theorem byteLen_encodeHex (bs : List (Fin 256)) :
    ((encodeHex bs).map Char.utf8Size).sum = 2 * bs.length := by
  induction bs with
  | nil => rfl
  | cons b bs ih =>
    have h1 : b.val / 16 < 16 := by omega
    have h2 : b.val % 16 < 16 := by omega
    simp only [encodeHex, List.map_cons, List.sum_cons, utf8Size_hexDigit _ h1,
      utf8Size_hexDigit _ h2, ih, List.length_cons]
    omega

theorem ObjectIDFromHex_Hex (id : ObjectID) : ObjectIDFromHex id.Hex = some id := by
  obtain ⟨bs, hbs⟩ := id
  simp [ObjectIDFromHex, ObjectID.Hex, byteLen, byteLen_encodeHex, decodeHex_encodeHex, hbs]

theorem char_le_iff (c d : Char) : c ≤ d ↔ c.toNat ≤ d.toNat := Iff.rfl

theorem utf8Size_of_toNat_le (c : Char) (h : c.toNat ≤ 127) : c.utf8Size = 1 := by
  have : c.val ≤ UInt32.ofNatCore 127 Char.utf8Size.proof_1 := h
  exact if_pos this

theorem utf8Size_of_fromHexChar (c : Char) (h : (fromHexChar c).isSome = true) :
    c.utf8Size = 1 := by
  apply utf8Size_of_toNat_le
  unfold fromHexChar at h
  simp only [char_le_iff] at h
  split_ifs at h with h1 h2 h3
  · have := h1.2; simp at this; omega
  · have := h2.2; simp at this; omega
  · have := h3.2; simp at this; omega
  · simp at h

theorem byteLen_of_hex (cs : List Char) (h : ∀ c ∈ cs, (fromHexChar c).isSome = true) :
    (cs.map Char.utf8Size).sum = cs.length := by
  induction cs with
  | nil => rfl
  | cons c cs ih =>
    simp only [List.map_cons, List.sum_cons, List.length_cons]
    rw [utf8Size_of_fromHexChar c (h c (List.mem_cons_self _ _)),
      ih (fun d hd => h d (List.mem_cons_of_mem _ hd))]
    omega

theorem decodeHex_some : ∀ (cs : List Char) (bs : List (Fin 256)), decodeHex cs = some bs →
    cs.length = 2 * bs.length ∧ ∀ c ∈ cs, (fromHexChar c).isSome = true
  | [], bs, h => by simp [decodeHex] at h; subst h; simp
  | [_], bs, h => by simp [decodeHex] at h
  | c :: d :: cs, bs, h => by
    unfold decodeHex at h
    split at h
    · rename_i hi lo rest h1 h2 h3
      simp at h
      subst h
      obtain ⟨hl, hall⟩ := decodeHex_some cs rest h3
      refine ⟨by simp [hl]; omega, ?_⟩
      intro x hx
      simp at hx
      rcases hx with rfl | rfl | hx
      · simp [h1]
      · simp [h2]
      · exact hall x hx
    · simp at h

theorem decodeHex_of_hex : ∀ (cs : List Char), (∀ c ∈ cs, (fromHexChar c).isSome = true) →
    ∀ n, cs.length = 2 * n → ∃ bs, decodeHex cs = some bs ∧ bs.length = n
  | [], _, n, hn => ⟨[], rfl, by simp at hn; simp; omega⟩
  | [_], _, n, hn => by simp at hn; omega
  | c :: d :: cs, hall, n, hn => by
    have hc := hall c (by simp)
    have hd := hall d (by simp)
    obtain ⟨bs, hbs, hlen⟩ := decodeHex_of_hex cs (fun x hx => hall x (by simp [hx])) (n - 1)
      (by simp at hn; omega)
    obtain ⟨h, hh⟩ := Option.isSome_iff_exists.mp hc
    obtain ⟨l, hl⟩ := Option.isSome_iff_exists.mp hd
    refine ⟨Fin.ofNat (h * 16 + l) :: bs, ?_, ?_⟩
    · simp [decodeHex, hh, hl, hbs]
    · simp at hn; simp [hlen]; omega

theorem ObjectIDFromHex_eq_none_iff (s : String) : ObjectIDFromHex s = none ↔ ¬ IsHexID s := by
  constructor
  · intro h hs
    obtain ⟨hlen, hall⟩ := hs
    obtain ⟨bs, hbs, hl⟩ := decodeHex_of_hex s.data hall 12 (by omega)
    simp [ObjectIDFromHex, byteLen, byteLen_of_hex _ hall, hlen, hbs, hl] at h
  · intro h
    by_contra hne
    obtain ⟨id, hid⟩ := Option.ne_none_iff_exists.mp hne
    apply h
    unfold ObjectIDFromHex at hid
    split_ifs at hid with hb
    split at hid
    · simp at hid
    · rename_i bs hbs
      split_ifs at hid with hl
      obtain ⟨h1, h2⟩ := decodeHex_some _ _ hbs
      exact ⟨by omega, h2⟩

/-! ## Completion: the response and the deferred deletion -/

theorem GetByID_ok_iff (u : Bool) (s : Store) (id : ObjectID) (t : Transaction) :
    GetByID u s id = .ok t ↔
      u = false ∧ ∃ d, s.slot id = .live d ∧
        t = { ID := id, Amount := d.amount, WebhookURL := d.webhook_url,
              WebhookKey := d.webhook_key, RedirectURL := d.redirect_url,
              Timestamp := d.timestamp } := by
  unfold GetByID FindOne
  cases u <;> simp
  cases h : s.slot id <;> simp
  exact eq_comm

theorem GetByID_ID {u : Bool} {s : Store} {id : ObjectID} {t : Transaction}
    (h : GetByID u s id = .ok t) : t.ID = id := by
  obtain ⟨_, d, _, rfl⟩ := (GetByID_ok_iff u s id t).mp h
  rfl

theorem Delete_live (s : Store) (id : ObjectID) (d : Document) (h : s.slot id = .live d) :
    Delete false s id = (.ok (), s.set id .deleted) := by
  simp [Delete, DeleteOne, h]

theorem Delete_store_cases (u : Bool) (s : Store) (id : ObjectID) :
    (Delete u s id).2 = s ∨
      ((Delete u s id).2 = s.set id .deleted ∧ (Delete u s id).1 = .ok () ∧
        ∃ d, s.slot id = .live d) := by
  unfold Delete DeleteOne
  cases u <;> simp
  cases h : s.slot id <;> simp

theorem redirectUser_fresh (url : String) :
    (redirectUser ResponseWriter.fresh url).Code = 303 ∧
      (redirectUser ResponseWriter.fresh url).Sent.Get "Content-Type" = "application/json" ∧
      (redirectUser ResponseWriter.fresh url).Body = [.jsonMap [("url", url)]] := by
  exact ⟨rfl, rfl, rfl⟩

theorem notify_of_request (env : Env) (o : Outcomes) (r : Request) (t : Transaction)
    (req0 : OutboundRequest)
    (h : NewRequest env "POST" t.WebhookURL [("status", "Success")] = some req0) :
    (PostTransaction.notify env o r t).1 = redirectUser ResponseWriter.fresh t.RedirectURL ∧
      (PostTransaction.notify env o r t).2.1 =
        [.httpDo
          { req0 with
            Header := (req0.Header.Set "Content-Type" "application/json").Set "Authorization"
              ("Bearer " ++ t.WebhookKey) } true] := by
  unfold PostTransaction.notify
  simp only [Marshal, h]
  split
  · exact ⟨rfl, rfl⟩
  · split <;> exact ⟨rfl, rfl⟩

theorem notify_effects (env : Env) (o : Outcomes) (r : Request) (t : Transaction) :
    ∀ k, Effect.deleteOne k ∉ (PostTransaction.notify env o r t).2.1 := by
  intro k
  unfold PostTransaction.notify
  simp only [Marshal]
  split
  · simp
  · split
    · simp
    · split <;> simp

/-- C1 (as stated, refuted): a stored transaction whose webhook address ends in
a line feed is found by PostTransaction, no outbound request can be built for
it, and the response is 500 with an error text, not a redirect. -/
theorem post_found_line_feed_is_500 :
    GetByID sampleOutcomes.findUnreachable lineFeedStore sampleID =
        .ok { ID := sampleID, Amount := sampleAmount,
              WebhookURL := "https://merchant.example/hook\n", WebhookKey := "k",
              RedirectURL := "https://shop.example/done", Timestamp := 0 } ∧
      (PostTransaction sampleEnv sampleOutcomes lineFeedStore sampleRequest).status = 500 ∧
      (PostTransaction sampleEnv sampleOutcomes lineFeedStore sampleRequest).body =
        [.line "Failed to construct update request"] :=
  ⟨rfl, by decide, by decide⟩

/-- C1 (amended): for every transaction that PostTransaction finds in the store
and for which the outbound request can be built, whatever the outcome of the
webhook call and of the deferred deletion, the response is status 303 with
content type application/json and the JSON body with the one member `url`, the
transaction's redirect address. -/
theorem post_found_redirects (env : Env) (o : Outcomes) (s : Store) (r : Request)
    (id : ObjectID) (transaction : Transaction)
    (hid : ObjectIDFromHex (r.Var "transaction_id") = some id)
    (hfound : GetByID o.findUnreachable s id = .ok transaction)
    (hreq : (NewRequest env "POST" transaction.WebhookURL [("status", "Success")]).isSome = true) :
    (PostTransaction env o s r).status = 303 ∧
      (PostTransaction env o s r).contentType = "application/json" ∧
      (PostTransaction env o s r).body = [.jsonMap [("url", transaction.RedirectURL)]] := by
  obtain ⟨req0, h0⟩ := Option.isSome_iff_exists.mp hreq
  have hn := (notify_of_request env o r transaction req0 h0).1
  have hw : (PostTransaction env o s r).w =
      redirectUser ResponseWriter.fresh transaction.RedirectURL := by
    simp [PostTransaction, hid, hfound, hn]
  simp only [Result.status, Result.contentType, Result.body, hw]
  exact redirectUser_fresh _

theorem post_found_redirects_witness :
    (PostTransaction sampleEnv sampleOutcomes sampleStore sampleRequest).status = 303 ∧
      (PostTransaction sampleEnv sampleOutcomes sampleStore sampleRequest).contentType =
        "application/json" ∧
      (PostTransaction sampleEnv sampleOutcomes sampleStore sampleRequest).body =
        [.jsonMap [("url", "https://shop.example/done")]] :=
  post_found_redirects sampleEnv sampleOutcomes sampleStore sampleRequest sampleID
    { ID := sampleID, Amount := sampleAmount, WebhookURL := "https://merchant.example/hook",
      WebhookKey := "k", RedirectURL := "https://shop.example/done", Timestamp := 0 }
    (by decide) rfl (by decide)

/-- C2: for every transaction that PostTransaction finds, whatever happens
between the lookup and the return, the deletion of its id is attempted exactly
once, as the last external call and for no other id; when that deletion
succeeds the record is absent afterwards (every lookup fails) and every other
record is as before. -/
theorem post_found_deletes_once (env : Env) (o : Outcomes) (s : Store) (r : Request)
    (id : ObjectID) (transaction : Transaction)
    (hid : ObjectIDFromHex (r.Var "transaction_id") = some id)
    (hfound : GetByID o.findUnreachable s id = .ok transaction) :
    (PostTransaction env o s r).effects.count (.deleteOne id) = 1 ∧
      (PostTransaction env o s r).effects.getLast? = some (.deleteOne id) ∧
      (∀ k, Effect.deleteOne k ∈ (PostTransaction env o s r).effects → k = id) ∧
      ((Delete o.deleteUnreachable s id).1 = .ok () →
        (PostTransaction env o s r).store.slot id = .deleted ∧
        (∀ u, GetByID u (PostTransaction env o s r).store id = .error
          (if u then .unreachable else .noDocuments)) ∧
        ∀ k, k ≠ id → (PostTransaction env o s r).store.slot k = s.slot k) := by
  have hID := GetByID_ID hfound
  have hne := notify_effects env o r transaction
  have heff : (PostTransaction env o s r).effects =
      .findOne id :: (PostTransaction.notify env o r transaction).2.1 ++ [.deleteOne id] := by
    simp [PostTransaction, hid, hfound, hID]
  have hst : (PostTransaction env o s r).store = (Delete o.deleteUnreachable s id).2 := by
    simp [PostTransaction, hid, hfound, hID]
  refine ⟨?_, ?_, ?_, ?_⟩
  · rw [heff]
    simp [List.count_cons, List.count_eq_zero.mpr (hne id)]
  · rw [heff, List.getLast?_concat]
  · intro k hk
    rw [heff] at hk
    simp at hk
    rcases hk with hk | hk
    · exact absurd hk (hne k)
    · exact hk
  · intro hdel
    rw [hst]
    rcases Delete_store_cases o.deleteUnreachable s id with h | ⟨h, _, _⟩
    · exfalso
      obtain ⟨hu, d, hd, _⟩ := (GetByID_ok_iff _ _ _ _).mp hfound
      cases hou : o.deleteUnreachable
      · rw [hou, Delete_live s id d hd] at h
        have := congrArg (fun st => st.slot id) h
        simp [Store.set, hd] at this
      · rw [hou] at hdel
        simp [Delete, DeleteOne] at hdel
    · rw [h]
      refine ⟨by simp [Store.set], ?_, ?_⟩
      · intro u
        cases u <;> simp [GetByID, FindOne, Store.set]
      · intro k hk
        simp [Store.set, hk]

theorem post_found_deletes_once_witness :
    (PostTransaction sampleEnv sampleOutcomes sampleStore sampleRequest).effects.count
        (.deleteOne sampleID) = 1 ∧
      (PostTransaction sampleEnv sampleOutcomes sampleStore sampleRequest).effects.getLast? =
        some (.deleteOne sampleID) ∧
      (PostTransaction sampleEnv sampleOutcomes sampleStore sampleRequest).store.slot sampleID =
        .deleted ∧
      (∀ u, GetByID u (PostTransaction sampleEnv sampleOutcomes sampleStore sampleRequest).store
        sampleID = .error (if u then .unreachable else .noDocuments)) ∧
      ∀ k, k ≠ sampleID →
        (PostTransaction sampleEnv sampleOutcomes sampleStore sampleRequest).store.slot k =
          sampleStore.slot k :=
  have h := post_found_deletes_once sampleEnv sampleOutcomes sampleStore sampleRequest sampleID
    { ID := sampleID, Amount := sampleAmount, WebhookURL := "https://merchant.example/hook",
      WebhookKey := "k", RedirectURL := "https://shop.example/done", Timestamp := 0 }
    (by decide) rfl
  ⟨h.1, h.2.1, h.2.2.2 rfl⟩

/-! ## Creation: authorization and decoding -/

theorem httpError_fresh (msg : String) (code : Nat) :
    (httpError ResponseWriter.fresh msg code).Code = code := rfl

/-- C4: CreateTransaction responds 401, attempts no insert and leaves the store
as it is whenever the Authorization header is not exactly "Bearer " followed by
the configured key, and never responds 401 when it is. -/
theorem create_unauthorized (env : Env) (o : Outcomes) (s : Store) (r : Request) :
    (r.Header.Get "Authorization" ≠ "Bearer " ++ env.API_KEY →
        (CreateTransaction env o s r).status = 401 ∧
        (CreateTransaction env o s r).store = s ∧
        (CreateTransaction env o s r).effects = []) ∧
      (r.Header.Get "Authorization" = "Bearer " ++ env.API_KEY →
        (CreateTransaction env o s r).status ≠ 401) := by
  constructor
  · intro h
    unfold CreateTransaction
    rw [if_pos h]
    exact ⟨rfl, rfl, rfl⟩
  · intro h
    have hn : ¬ (r.Header.Get "Authorization" ≠ "Bearer " ++ env.API_KEY) := fun hne => hne h
    simp only [CreateTransaction, if_neg hn]
    cases hd : Decode r.Body with
    | none => simp [Result.status, httpError_fresh, StatusBadRequest]
    | some input =>
      simp only
      rcases hi : Insert o.insert s (Create o.now input) with ⟨res, s1⟩
      cases res with
      | error e => simp [Result.status, httpError_fresh, StatusInternalServerError]
      | ok id => simp [Result.status, StatusCreated, ResponseWriter.Code, ResponseWriter.Write,
          ResponseWriter.WriteHeader, ResponseWriter.SetHeader, ResponseWriter.fresh]

theorem create_unauthorized_witness :
    ((CreateTransaction sampleEnv sampleOutcomes sampleStore wrongKeyRequest).status = 401 ∧
        (CreateTransaction sampleEnv sampleOutcomes sampleStore wrongKeyRequest).store =
          sampleStore ∧
        (CreateTransaction sampleEnv sampleOutcomes sampleStore wrongKeyRequest).effects = []) ∧
      (CreateTransaction sampleEnv sampleOutcomes Store.empty sampleRequest).status ≠ 401 :=
  ⟨(create_unauthorized sampleEnv sampleOutcomes sampleStore wrongKeyRequest).1 (by decide),
    (create_unauthorized sampleEnv sampleOutcomes Store.empty sampleRequest).2 (by decide)⟩

theorem storeMember_flag (acc : TransactionInput × Bool) (m : String × Json) :
    (storeMember acc m).2 = (acc.2 && !badMember m) := by
  rcases m with ⟨k, v⟩
  unfold storeMember badMember
  cases v with
  | number f =>
    cases f <;> (dsimp only; split_ifs <;>
      simp [storeFloat, storeString, Json.fitsFloat, Json.fitsString])
  | _ =>
    dsimp only
    split_ifs <;> simp [storeFloat, storeString, Json.fitsFloat, Json.fitsString]

theorem foldl_storeMember_flag (members : List (String × Json)) :
    ∀ acc : TransactionInput × Bool,
      (members.foldl storeMember acc).2 = (acc.2 && members.all (fun m => !badMember m)) := by
  induction members with
  | nil => intro acc; simp
  | cons m rest ih =>
    intro acc
    simp only [List.foldl_cons, List.all_cons]
    rw [ih, storeMember_flag, Bool.and_assoc]

theorem foldl_storeMember_eq_none_iff (members : List (String × Json)) :
    (match members.foldl storeMember (TransactionInput.zero, true) with
      | (input, true) => some input
      | (_, false) => none) = none ↔ ∃ m ∈ members, badMember m = true := by
  have h := foldl_storeMember_flag members (TransactionInput.zero, true)
  rcases hf : members.foldl storeMember (TransactionInput.zero, true) with ⟨input, flag⟩
  rw [hf] at h
  simp only [Bool.true_and] at h
  cases flag with
  | true =>
    simp only [false_iff, reduceCtorEq]
    rintro ⟨m, hm, hb⟩
    have := List.all_eq_true.mp h.symm m hm
    simp [hb] at this
  | false =>
    simp only [true_iff]
    have h2 : ¬ (members.all (fun m => !badMember m) = true) := by simp [← h]
    rw [List.all_eq_true] at h2
    push_neg at h2
    obtain ⟨m, hm, hb⟩ := h2
    exact ⟨m, hm, by simpa using hb⟩

theorem Decode_eq_none_iff (body : Option Json) : Decode body = none ↔ UndecodableBody body := by
  cases body with
  | none => simp [Decode, UndecodableBody]
  | some v =>
    simp only [Decode, UndecodableBody]
    by_cases hdeep : maxNestingDepth < v.depth
    · simp [hdeep]
    · simp only [hdeep, if_false, false_or]
      cases v with
      | object members => exact foldl_storeMember_eq_none_iff members
      | _ => simp [wrongShape]

/-- C5 (as stated, refuted): two authorized creation requests, one whose body is
the empty JSON object (all four fields are lacking) and one whose body carries
the amount -1 and nothing else, are answered 201, and a record is persisted for
each. -/
theorem create_accepts_missing_fields_and_negative_amount :
    ((CreateTransaction sampleEnv sampleOutcomes Store.empty sampleRequest).status = 201 ∧
        (CreateTransaction sampleEnv sampleOutcomes Store.empty sampleRequest).store.slot
            sampleID =
          .live { amount := Float64.zero, webhook_url := "", webhook_key := "",
                  redirect_url := "", timestamp := 1700000000000000000 }) ∧
      ((CreateTransaction sampleEnv sampleOutcomes Store.empty negativeAmountRequest).status =
          201 ∧
        (CreateTransaction sampleEnv sampleOutcomes Store.empty negativeAmountRequest).store.slot
            sampleID =
          .live { amount := ⟨0xBFF0000000000000⟩, webhook_url := "", webhook_key := "",
                  redirect_url := "", timestamp := 1700000000000000000 } ∧
        Float64.isPositive ⟨0xBFF0000000000000⟩ = false) := by
  decide

/-- C5 (amended): for every authorized creation request whose body does not
decode (it is not a JSON value, or it is nested deeper than the decoder allows,
or it is a JSON value other than an object and other than null, or it is an
object with a member that names a field and has a value of the wrong type for
it), CreateTransaction fails with 400, attempts no insert and leaves the store
as it is. -/
theorem create_undecodable_is_400 (env : Env) (o : Outcomes) (s : Store) (r : Request)
    (hauth : r.Header.Get "Authorization" = "Bearer " ++ env.API_KEY)
    (hbad : UndecodableBody r.Body) :
    (CreateTransaction env o s r).status = 400 ∧
      (CreateTransaction env o s r).store = s ∧
      (CreateTransaction env o s r).effects = [] := by
  have hn : ¬ (r.Header.Get "Authorization" ≠ "Bearer " ++ env.API_KEY) := fun hne => hne hauth
  have hd := (Decode_eq_none_iff r.Body).mpr hbad
  unfold CreateTransaction
  rw [if_neg hn, hd]
  exact ⟨rfl, rfl, rfl⟩

theorem create_undecodable_is_400_witness :
    (CreateTransaction sampleEnv sampleOutcomes sampleStore stringBodyRequest).status = 400 ∧
      (CreateTransaction sampleEnv sampleOutcomes sampleStore stringBodyRequest).store =
        sampleStore ∧
      (CreateTransaction sampleEnv sampleOutcomes sampleStore stringBodyRequest).effects = [] :=
  create_undecodable_is_400 sampleEnv sampleOutcomes sampleStore stringBodyRequest
    (by decide) (Or.inr trivial)

/-! ## Malformed identifiers -/

/-- C6: for every request whose identifier is not a well-formed identifier
string (24 hexadecimal digits), GetTransactionHTML, GetTransactionJS and
PostTransaction each respond 400, make no external call at all (no store
lookup, no store mutation, no webhook) and leave the store as it is. -/
theorem malformed_id_is_400 (env : Env) (o : Outcomes) (s : Store) (r : Request)
    (hbad : ¬ IsHexID (r.Var "transaction_id")) :
    ((GetTransactionHTML env o s r).status = 400 ∧
        (GetTransactionHTML env o s r).effects = [] ∧
        (GetTransactionHTML env o s r).store = s) ∧
      ((GetTransactionJS env o s r).status = 400 ∧
        (GetTransactionJS env o s r).effects = [] ∧
        (GetTransactionJS env o s r).store = s) ∧
      ((PostTransaction env o s r).status = 400 ∧
        (PostTransaction env o s r).effects = [] ∧
        (PostTransaction env o s r).store = s) := by
  have h := (ObjectIDFromHex_eq_none_iff _).mpr hbad
  refine ⟨?_, ?_, ?_⟩
  · unfold GetTransactionHTML
    rw [h]
    exact ⟨rfl, rfl, rfl⟩
  · unfold GetTransactionJS
    rw [h]
    exact ⟨rfl, rfl, rfl⟩
  · unfold PostTransaction
    rw [h]
    exact ⟨rfl, rfl, rfl⟩

theorem malformed_id_is_400_witness :
    ((GetTransactionHTML sampleEnv sampleOutcomes sampleStore shortIDRequest).status = 400 ∧
        (GetTransactionHTML sampleEnv sampleOutcomes sampleStore shortIDRequest).effects = [] ∧
        (GetTransactionHTML sampleEnv sampleOutcomes sampleStore shortIDRequest).store =
          sampleStore) ∧
      ((GetTransactionJS sampleEnv sampleOutcomes sampleStore shortIDRequest).status = 400 ∧
        (GetTransactionJS sampleEnv sampleOutcomes sampleStore shortIDRequest).effects = [] ∧
        (GetTransactionJS sampleEnv sampleOutcomes sampleStore shortIDRequest).store =
          sampleStore) ∧
      ((PostTransaction sampleEnv sampleOutcomes sampleStore shortIDRequest).status = 400 ∧
        (PostTransaction sampleEnv sampleOutcomes sampleStore shortIDRequest).effects = [] ∧
        (PostTransaction sampleEnv sampleOutcomes sampleStore shortIDRequest).store =
          sampleStore) :=
  malformed_id_is_400 sampleEnv sampleOutcomes sampleStore shortIDRequest (by decide)

/-! ## The store round trip -/

theorem Create_IsZero (now : Time) (input : TransactionInput) :
    (Create now input).ID.IsZero = true := by
  simp [Create, ObjectID.IsZero]

theorem Insert_Create_ok (now : Time) (input : TransactionInput) (ins : InsertOutcome)
    (s s1 : Store) (id : ObjectID) (h : Insert ins s (Create now input) = (.ok id, s1)) :
    ins = .reached id ∧ s.slot id = .unused ∧
      s1 = s.set id (.live
        { amount := input.Amount, webhook_url := input.WebhookURL,
          webhook_key := input.WebhookKey, redirect_url := input.RedirectURL,
          timestamp := bsonDateTime now }) := by
  unfold Insert InsertOne at h
  cases ins with
  | unreachable => simp at h
  | reached fresh =>
    simp only [Create_IsZero, if_true] at h
    cases hs : s.slot fresh with
    | unused =>
      rw [hs] at h
      simp only [Prod.mk.injEq, Except.ok.injEq] at h
      obtain ⟨rfl, rfl⟩ := h
      exact ⟨rfl, hs, rfl⟩
    | live d => rw [hs] at h; simp at h
    | deleted => rw [hs] at h; simp at h

/-- C7: store round trip. For every creation input, when Insert of
Create(input) succeeds and returns id, a GetByID(id) that reaches the store
returns a transaction whose ID is id and whose Amount, WebhookURL, WebhookKey
and RedirectURL are those of the input (its Timestamp is the time of creation
cut to milliseconds). -/
theorem insert_get_round_trip (now : Time) (input : TransactionInput) (ins : InsertOutcome)
    (s s1 : Store) (id : ObjectID) (h : Insert ins s (Create now input) = (.ok id, s1)) :
    GetByID false s1 id =
      .ok { ID := id, Amount := input.Amount, WebhookURL := input.WebhookURL,
            WebhookKey := input.WebhookKey, RedirectURL := input.RedirectURL,
            Timestamp := bsonDateTime now } := by
  obtain ⟨_, _, rfl⟩ := Insert_Create_ok now input ins s s1 id h
  simp [GetByID, FindOne, Store.set]

theorem insert_get_round_trip_witness :
    GetByID false
        (Store.empty.set sampleID (.live
          { amount := sampleAmount, webhook_url := "https://merchant.example/hook",
            webhook_key := "k", redirect_url := "https://shop.example/done",
            timestamp := bsonDateTime 1700000000000000123 })) sampleID =
      .ok { ID := sampleID, Amount := sampleInput.Amount, WebhookURL := sampleInput.WebhookURL,
            WebhookKey := sampleInput.WebhookKey, RedirectURL := sampleInput.RedirectURL,
            Timestamp := bsonDateTime 1700000000000000123 } :=
  insert_get_round_trip 1700000000000000123 sampleInput (.reached sampleID) Store.empty _
    sampleID rfl

/-! ## The outbound call -/

theorem NewRequest_some (env : Env) (method url : String) (body : JsonMap)
    (req0 : OutboundRequest) (h : NewRequest env method url body = some req0) :
    req0 = { Method := method, URL := url, Header := [], Body := body, Ctx := .background } := by
  unfold NewRequest at h
  split_ifs at h
  simpa using h.symm

theorem followRedirects_length (body : JsonMap) (answers : WebhookOutcome) :
    ∀ (n : Nat) (method : String),
      (followRedirects body n method answers).1.length ≤ 10 - n := by
  induction answers with
  | transportError => intro n method; simp [followRedirects]
  | response StatusCode => intro n method; simp [followRedirects]
  | redirect StatusCode Location next ih =>
    intro n method
    unfold followRedirects
    split
    · cases Location with
      | none => simp
      | some u =>
        dsimp only
        split
        · simp
        · have h := ih (n + 1)
            (if decide (StatusCode = 307 ∨ StatusCode = 308) = true then method
             else if method ≠ "GET" ∧ method ≠ "HEAD" then "GET" else method)
          simp only [List.length_cons]
          omega
    · simp

theorem Do_length (req : OutboundRequest) (answers : WebhookOutcome) :
    (Do req answers).1.length ≤ 10 := by
  have h := followRedirects_length req.Body answers 1 req.Method
  simp only [Do, List.length_cons]
  omega

/-- C10, counterexample: the webhook of the sample transaction answers the POST
with 307 and a Location, and the request that follows with 200. PostTransaction
calls `httpClient.Do` once, and two requests go out: after the response 307,
which is not a 2xx, the POST is sent a second time, with its body, to the
address of the Location. -/
theorem post_is_sent_again_after_307 :
    redirectOutcomes.webhook =
        .redirect 307 (some "https://merchant.example/moved") (.response 200) ∧
      GetByID redirectOutcomes.findUnreachable sampleStore sampleID =
        .ok { ID := sampleID, Amount := sampleAmount,
              WebhookURL := "https://merchant.example/hook", WebhookKey := "k",
              RedirectURL := "https://shop.example/done", Timestamp := 0 } ∧
      (NewRequest sampleEnv "POST" "https://merchant.example/hook"
        [("status", "Success")]).isSome = true ∧
      countHttpDo (PostTransaction sampleEnv redirectOutcomes sampleStore sampleRequest).effects
        = 1 ∧
      wireRequests redirectOutcomes.webhook
          (PostTransaction sampleEnv redirectOutcomes sampleStore sampleRequest).effects =
        [{ Method := "POST", URL := "https://merchant.example/hook",
           Body := some [("status", "Success")] },
         { Method := "POST", URL := "https://merchant.example/moved",
           Body := some [("status", "Success")] }] :=
  ⟨rfl, rfl, by decide, by decide, by decide⟩

/-- C10 (amended): for every transaction that PostTransaction finds and for
which the outbound request can be built, whatever the outcome of the call, the
external calls are exactly the lookup, one call of `httpClient.Do` and the
deletion; the request of that call is a POST to the transaction's webhook
address with the headers Authorization, "Bearer " followed by its webhook key,
and Content-Type, application/json, and with the JSON body that has the one
member status with the value Success. That request is the first one on the
wire, and at most 10 requests are sent. It is the only request when the call
fails in transport, when the response has nothing to follow, whatever its
status, and when the status is none of 301, 302, 303, 307, 308: the handler
makes no second attempt. Within the one call the client follows a redirect with
a Location that parses: after 307 or 308 the POST is sent again with the same
body to the new address, after 301, 302 or 303 a GET without body is sent
there. -/
theorem post_found_one_do_call (env : Env) (o : Outcomes) (s : Store) (r : Request)
    (id : ObjectID) (transaction : Transaction)
    (hid : ObjectIDFromHex (r.Var "transaction_id") = some id)
    (hfound : GetByID o.findUnreachable s id = .ok transaction)
    (hreq : (NewRequest env "POST" transaction.WebhookURL [("status", "Success")]).isSome = true) :
    (PostTransaction env o s r).effects =
        [.findOne id,
         .httpDo
           { Method := "POST"
             URL := transaction.WebhookURL
             Header := [("Authorization", "Bearer " ++ transaction.WebhookKey),
                        ("Content-Type", "application/json")]
             Body := [("status", "Success")]
             Ctx := .background } true,
         .deleteOne id] ∧
      wireRequests o.webhook (PostTransaction env o s r).effects =
        { Method := "POST", URL := transaction.WebhookURL,
          Body := some [("status", "Success")] } ::
          (followRedirects [("status", "Success")] 1 "POST" o.webhook).1 ∧
      (wireRequests o.webhook (PostTransaction env o s r).effects).length ≤ 10 ∧
      (o.webhook = .transportError →
        wireRequests o.webhook (PostTransaction env o s r).effects =
          [{ Method := "POST", URL := transaction.WebhookURL,
             Body := some [("status", "Success")] }]) ∧
      (∀ StatusCode : Nat, o.webhook = .response StatusCode →
        wireRequests o.webhook (PostTransaction env o s r).effects =
          [{ Method := "POST", URL := transaction.WebhookURL,
             Body := some [("status", "Success")] }]) ∧
      (∀ (StatusCode : Nat) (Location : Option String) (next : WebhookOutcome),
        o.webhook = .redirect StatusCode Location next →
        StatusCode ≠ 301 → StatusCode ≠ 302 → StatusCode ≠ 303 → StatusCode ≠ 307 →
        StatusCode ≠ 308 →
        wireRequests o.webhook (PostTransaction env o s r).effects =
          [{ Method := "POST", URL := transaction.WebhookURL,
             Body := some [("status", "Success")] }]) ∧
      (∀ (StatusCode : Nat) (u : String) (next : WebhookOutcome),
        o.webhook = .redirect StatusCode (some u) next →
        StatusCode = 307 ∨ StatusCode = 308 →
        wireRequests o.webhook (PostTransaction env o s r).effects =
          { Method := "POST", URL := transaction.WebhookURL,
            Body := some [("status", "Success")] } ::
          { Method := "POST", URL := u, Body := some [("status", "Success")] } ::
          (followRedirects [("status", "Success")] 2 "POST" next).1) ∧
      (∀ (StatusCode : Nat) (u : String) (next : WebhookOutcome),
        o.webhook = .redirect StatusCode (some u) next →
        StatusCode = 301 ∨ StatusCode = 302 ∨ StatusCode = 303 →
        wireRequests o.webhook (PostTransaction env o s r).effects =
          { Method := "POST", URL := transaction.WebhookURL,
            Body := some [("status", "Success")] } ::
          { Method := "GET", URL := u, Body := none } ::
          (followRedirects [("status", "Success")] 2 "GET" next).1) := by
  obtain ⟨req0, h0⟩ := Option.isSome_iff_exists.mp hreq
  have hn := (notify_of_request env o r transaction req0 h0).2
  have hID := GetByID_ID hfound
  have h1 := NewRequest_some _ _ _ _ _ h0
  subst h1
  have heff : (PostTransaction env o s r).effects =
      [.findOne id,
       .httpDo
         { Method := "POST"
           URL := transaction.WebhookURL
           Header := [("Authorization", "Bearer " ++ transaction.WebhookKey),
                      ("Content-Type", "application/json")]
           Body := [("status", "Success")]
           Ctx := .background } true,
       .deleteOne id] := by
    simp only [PostTransaction, hid, hfound, hn, hID]
    simp [HeaderMap.Set]
  have hwire : wireRequests o.webhook (PostTransaction env o s r).effects =
      { Method := "POST", URL := transaction.WebhookURL,
        Body := some [("status", "Success")] } ::
        (followRedirects [("status", "Success")] 1 "POST" o.webhook).1 := by
    rw [heff]
    simp [wireRequests, Do]
  have hlen := followRedirects_length [("status", "Success")] o.webhook 1 "POST"
  refine ⟨heff, hwire, ?_, ?_, ?_, ?_, ?_, ?_⟩
  · rw [hwire, List.length_cons]
    omega
  · intro h
    rw [hwire, h]
    simp [followRedirects]
  · intro StatusCode h
    rw [hwire, h]
    simp [followRedirects]
  · intro StatusCode Location next h h301 h302 h303 h307 h308
    rw [hwire, h]
    simp [followRedirects, h301, h302, h303, h307, h308]
  · intro StatusCode u next h hc
    rw [hwire, h]
    rcases hc with hc | hc <;> subst hc <;> simp [followRedirects]
  · intro StatusCode u next h hc
    rw [hwire, h]
    rcases hc with hc | hc | hc <;> subst hc <;> simp [followRedirects]

theorem post_found_one_do_call_witness :
    (PostTransaction sampleEnv foundOutcomes sampleStore sampleRequest).effects =
        [.findOne sampleID,
         .httpDo
           { Method := "POST"
             URL := "https://merchant.example/hook"
             Header := [("Authorization", "Bearer " ++ "k"),
                        ("Content-Type", "application/json")]
             Body := [("status", "Success")]
             Ctx := .background } true,
         .deleteOne sampleID] ∧
      wireRequests foundOutcomes.webhook
          (PostTransaction sampleEnv foundOutcomes sampleStore sampleRequest).effects =
        [{ Method := "POST", URL := "https://merchant.example/hook",
           Body := some [("status", "Success")] },
         { Method := "GET", URL := "https://merchant.example/moved", Body := none }] :=
  have h := post_found_one_do_call sampleEnv foundOutcomes sampleStore sampleRequest sampleID
    { ID := sampleID, Amount := sampleAmount, WebhookURL := "https://merchant.example/hook",
      WebhookKey := "k", RedirectURL := "https://shop.example/done", Timestamp := 0 }
    (by decide) rfl (by decide)
  ⟨h.1, h.2.2.2.2.2.2.2 302 "https://merchant.example/moved" (.response 500) rfl
    (Or.inr (Or.inl rfl))⟩

/-! ## Creation: the returned address -/

theorem Split_of_not_mem (sep : Char) (a : List Char) (h : sep ∉ a) : Split sep a = [a] := by
  induction a with
  | nil => rfl
  | cons c cs ih =>
    have hc : c ≠ sep := fun e => h (by simp [e])
    have hcs : sep ∉ cs := fun e => h (List.mem_cons_of_mem _ e)
    simp [Split, hc, ih hcs]

theorem Split_append (sep : Char) (a b : List Char) (h : sep ∉ a) :
    Split sep (a ++ sep :: b) = a :: Split sep b := by
  induction a with
  | nil => simp [Split]
  | cons c cs ih =>
    have hc : c ≠ sep := fun e => h (by simp [e])
    have hcs : sep ∉ cs := fun e => h (List.mem_cons_of_mem _ e)
    simp [Split, hc, ih hcs]

theorem hexDigit_ne_slash (n : Nat) (h : n < 16) : hexDigit n ≠ '/' := by
  interval_cases n <;> decide

theorem slash_not_mem_encodeHex (bs : List (Fin 256)) : '/' ∉ encodeHex bs := by
  induction bs with
  | nil => simp [encodeHex]
  | cons b bs ih =>
    have h1 : b.val / 16 < 16 := by omega
    have h2 : b.val % 16 < 16 := by omega
    simp only [encodeHex, List.mem_cons, not_or]
    exact ⟨(hexDigit_ne_slash _ h1).symm, (hexDigit_ne_slash _ h2).symm, ih⟩

theorem Split_transactionURL (host : String) (id : ObjectID) (hhost : '/' ∉ host.data) :
    Split '/' ("http://" ++ host ++ "/transaction/" ++ id.Hex).data =
      ["http:".data, [], host.data, "transaction".data, id.Hex.data] := by
  have e : ("http://" ++ host ++ "/transaction/" ++ id.Hex).data =
      "http:".data ++ '/' :: ([] ++ '/' :: (host.data ++ '/' ::
        ("transaction".data ++ '/' :: id.Hex.data))) := by
    simp [String.data_append]
  rw [e, Split_append _ _ _ (by decide), Split_append _ _ _ (by simp),
    Split_append _ _ _ hhost, Split_append _ _ _ (by decide),
    Split_of_not_mem _ id.Hex.data (slash_not_mem_encodeHex id.bytes)]


/-- C8: for every authorized creation request whose body decodes, whose host
contains no slash and whose insert succeeds with id, CreateTransaction responds
201 with content type application/json and the JSON body with the one member
url, "http://" followed by the host, "/transaction/" and the hex of id; the
record is in the store under id; splitting the address on "/" gives 5 pieces,
the last of which is the hex of id and parses back to id. -/
theorem create_ok_url (env : Env) (o : Outcomes) (s s1 : Store) (r : Request)
    (input : TransactionInput) (id : ObjectID)
    (hauth : r.Header.Get "Authorization" = "Bearer " ++ env.API_KEY)
    (hdec : Decode r.Body = some input)
    (hins : Insert o.insert s (Create o.now input) = (.ok id, s1))
    (hhost : '/' ∉ r.Host.data) :
    (CreateTransaction env o s r).status = 201 ∧
      (CreateTransaction env o s r).contentType = "application/json" ∧
      (CreateTransaction env o s r).body =
        [.jsonMap [("url", "http://" ++ r.Host ++ "/transaction/" ++ id.Hex)]] ∧
      (CreateTransaction env o s r).store.slot id =
        .live { amount := input.Amount, webhook_url := input.WebhookURL,
                webhook_key := input.WebhookKey, redirect_url := input.RedirectURL,
                timestamp := bsonDateTime o.now } ∧
      (Split '/' ("http://" ++ r.Host ++ "/transaction/" ++ id.Hex).data).length = 5 ∧
      (Split '/' ("http://" ++ r.Host ++ "/transaction/" ++ id.Hex).data).getLast? =
        some id.Hex.data ∧
      ObjectIDFromHex (String.mk id.Hex.data) = some id := by
  have hn : ¬ (r.Header.Get "Authorization" ≠ "Bearer " ++ env.API_KEY) := fun hne => hne hauth
  obtain ⟨_, _, hs1⟩ := Insert_Create_ok o.now input o.insert s s1 id hins
  have hres : CreateTransaction env o s r =
      { store := s1
        w := ((ResponseWriter.fresh.SetHeader "Content-Type" "application/json").WriteHeader
          StatusCreated).Write (.jsonMap [("url", "http://" ++ r.Host ++ "/transaction/" ++ id.Hex)])
        effects := [.insertOne (Create o.now input)]
        logs := [logStatus r StatusCreated "Transaction Initialized"] } := by
    unfold CreateTransaction
    rw [if_neg hn, hdec]
    simp only [hins]
  rw [hres, Split_transactionURL r.Host id hhost]
  refine ⟨rfl, rfl, rfl, ?_, rfl, rfl, ObjectIDFromHex_Hex id⟩
  subst hs1
  simp [Store.set]

theorem create_ok_url_witness :
    (CreateTransaction sampleEnv sampleOutcomes Store.empty createRequest).status = 201 ∧
      (CreateTransaction sampleEnv sampleOutcomes Store.empty createRequest).contentType =
        "application/json" ∧
      (CreateTransaction sampleEnv sampleOutcomes Store.empty createRequest).body =
        [.jsonMap [("url", "http://" ++ createRequest.Host ++ "/transaction/" ++ sampleID.Hex)]] ∧
      (CreateTransaction sampleEnv sampleOutcomes Store.empty createRequest).store.slot sampleID =
        .live { amount := sampleInput.Amount, webhook_url := sampleInput.WebhookURL,
                webhook_key := sampleInput.WebhookKey, redirect_url := sampleInput.RedirectURL,
                timestamp := bsonDateTime sampleOutcomes.now } ∧
      (Split '/' ("http://" ++ createRequest.Host ++ "/transaction/" ++ sampleID.Hex).data).length
        = 5 ∧
      (Split '/' ("http://" ++ createRequest.Host ++ "/transaction/" ++
        sampleID.Hex).data).getLast? = some sampleID.Hex.data ∧
      ObjectIDFromHex (String.mk sampleID.Hex.data) = some sampleID :=
  create_ok_url sampleEnv sampleOutcomes Store.empty _ createRequest sampleInput sampleID
    (by decide) (by decide) rfl (by decide)

/-! ## Presentation -/

theorem GetTransactionHTML_store (env : Env) (o : Outcomes) (s : Store) (r : Request) :
    (GetTransactionHTML env o s r).store = s := by
  unfold GetTransactionHTML
  split
  · rfl
  · split
    · rfl
    · dsimp only
      split <;> rfl

theorem GetTransactionJS_store (env : Env) (o : Outcomes) (s : Store) (r : Request) :
    (GetTransactionJS env o s r).store = s := by
  unfold GetTransactionJS
  split
  · rfl
  · split
    · rfl
    · dsimp only
      split <;> rfl

/-- A writer whose header map holds the given content type alone and to which
nothing but body pieces were written. -/
theorem Write_keeps (ct : String) (w : ResponseWriter) (c : Chunk)
    (h : w.Header = [("Content-Type", ct)] ∧
      (w.wrote = none ∨ w.wrote = some (200, [("Content-Type", ct)]))) :
    (w.Write c).Header = [("Content-Type", ct)] ∧
      ((w.Write c).wrote = none ∨ (w.Write c).wrote = some (200, [("Content-Type", ct)])) := by
  obtain ⟨hh, hw | hw⟩ := h
  · simp [ResponseWriter.Write, ResponseWriter.WriteHeader, hw, hh]
  · simp [ResponseWriter.Write, ResponseWriter.WriteHeader, hw, hh]

theorem foldl_Write_keeps (ct : String) (pieces : List String) :
    ∀ w : ResponseWriter,
      (w.Header = [("Content-Type", ct)] ∧
        (w.wrote = none ∨ w.wrote = some (200, [("Content-Type", ct)]))) →
      ((pieces.foldl (fun acc piece => acc.Write (.rendered piece)) w).Header =
          [("Content-Type", ct)] ∧
        ((pieces.foldl (fun acc piece => acc.Write (.rendered piece)) w).wrote = none ∨
          (pieces.foldl (fun acc piece => acc.Write (.rendered piece)) w).wrote =
            some (200, [("Content-Type", ct)]))) := by
  induction pieces with
  | nil => intro w h; exact h
  | cons p rest ih =>
    intro w h
    simp only [List.foldl_cons]
    exact ih _ (Write_keeps ct w _ h)

theorem rendered_ok (ct : String) (tpl : Template) (name : String) (data : TemplateData) :
    (ExecuteTemplate tpl (ResponseWriter.fresh.SetHeader "Content-Type" ct) name data).1.Code
        = 200 ∧
      (ExecuteTemplate tpl (ResponseWriter.fresh.SetHeader "Content-Type" ct) name
        data).1.Sent.Get "Content-Type" = ct := by
  have h := foldl_Write_keeps ct (tpl name data).written
    (ResponseWriter.fresh.SetHeader "Content-Type" ct)
    ⟨by simp [ResponseWriter.SetHeader, ResponseWriter.fresh, HeaderMap.Set],
      Or.inl (by simp [ResponseWriter.SetHeader, ResponseWriter.fresh])⟩
  unfold ExecuteTemplate
  obtain ⟨hh, hw | hw⟩ := h
  · simp [ResponseWriter.Code, ResponseWriter.Sent, hw, hh, HeaderMap.Get, List.lookup]
  · simp [ResponseWriter.Code, ResponseWriter.Sent, hw, HeaderMap.Get, List.lookup]

theorem GetByID_live (s : Store) (id : ObjectID) (d : Document) (h : s.slot id = .live d) :
    GetByID false s id =
      .ok { ID := id, Amount := d.amount, WebhookURL := d.webhook_url,
            WebhookKey := d.webhook_key, RedirectURL := d.redirect_url,
            Timestamp := d.timestamp } := by
  simp [GetByID, FindOne, h]

theorem GetTransactionHTML_ok (env : Env) (o : Outcomes) (s : Store) (r : Request)
    (id : ObjectID) (d : Document)
    (hid : ObjectIDFromHex (r.Var "transaction_id") = some id)
    (hu : o.findUnreachable = false) (hlive : s.slot id = .live d)
    (hrender : (env.t.HTML "transaction.html" (.page d.amount id.Hex)).failed = false) :
    (GetTransactionHTML env o s r).status = 200 ∧
      (GetTransactionHTML env o s r).contentType = "text/html" := by
  have hr := rendered_ok "text/html" env.t.HTML "transaction.html" (.page d.amount id.Hex)
  have hf : (ExecuteTemplate env.t.HTML (ResponseWriter.fresh.SetHeader "Content-Type" "text/html")
      "transaction.html" (.page d.amount id.Hex)).2 = false := hrender
  unfold GetTransactionHTML
  rw [hid]
  simp only [hu, GetByID_live s id d hlive, RenderHTML]
  split
  · rename_i w2 heq
    rw [heq] at hf
    simp at hf
  · rename_i w2 heq
    rw [heq] at hr
    exact hr

theorem GetTransactionJS_ok (env : Env) (o : Outcomes) (s : Store) (r : Request)
    (id : ObjectID) (d : Document)
    (hid : ObjectIDFromHex (r.Var "transaction_id") = some id)
    (hu : o.findUnreachable = false) (hlive : s.slot id = .live d)
    (hrender : (env.t.JS "transaction.js" (.script id.Hex)).failed = false) :
    (GetTransactionJS env o s r).status = 200 ∧
      (GetTransactionJS env o s r).contentType = "application/javascript" := by
  have hr := rendered_ok "application/javascript" env.t.JS "transaction.js" (.script id.Hex)
  have hf : (ExecuteTemplate env.t.JS
      (ResponseWriter.fresh.SetHeader "Content-Type" "application/javascript")
      "transaction.js" (.script id.Hex)).2 = false := hrender
  unfold GetTransactionJS
  rw [hid]
  simp only [hu, GetByID_live s id d hlive, RenderJS]
  split
  · rename_i w2 heq
    rw [heq] at hf
    simp at hf
  · rename_i w2 heq
    rw [heq] at hr
    exact hr

/-- C9: GetTransactionHTML and GetTransactionJS leave the store as it is, for
every request and every outcome of the lookup and of the rendering. Hence, for
a stored transaction whose templates render without error, in any sequence of
presentation calls for it whose lookups reach the store, the store stays as it
is and every call is answered 200, with content type text/html for the page and
application/javascript for the script. -/
theorem presentation_is_repeatable (env : Env) (s : Store) :
    (∀ (o : Outcomes) (r : Request),
        (GetTransactionHTML env o s r).store = s ∧ (GetTransactionJS env o s r).store = s) ∧
      (∀ (id : ObjectID) (d : Document), s.slot id = .live d →
        (env.t.HTML "transaction.html" (.page d.amount id.Hex)).failed = false →
        (env.t.JS "transaction.js" (.script id.Hex)).failed = false →
        ∀ calls : List Invocation,
          (∀ i ∈ calls, (i.endpoint = .html ∨ i.endpoint = .js) ∧
            ObjectIDFromHex (i.r.Var "transaction_id") = some id ∧
            i.o.findUnreachable = false) →
          run env s calls = s ∧
          List.Forall₂
            (fun i res => res.status = 200 ∧
              res.contentType =
                (if i.endpoint = .html then "text/html" else "application/javascript"))
            calls (responses env s calls)) := by
  refine ⟨fun o r => ⟨GetTransactionHTML_store env o s r, GetTransactionJS_store env o s r⟩, ?_⟩
  intro id d hlive hH hJ calls
  induction calls with
  | nil => intro _; exact ⟨rfl, List.Forall₂.nil⟩
  | cons i rest ih =>
    intro hcalls
    obtain ⟨hend, hid, hu⟩ := hcalls i (List.mem_cons_self _ _)
    have hrest := ih (fun j hj => hcalls j (List.mem_cons_of_mem _ hj))
    have hstore : (serve env s i).store = s := by
      rcases hend with h | h
      · simp [serve, h, GetTransactionHTML_store]
      · simp [serve, h, GetTransactionJS_store]
    simp only [run, responses, hstore]
    refine ⟨hrest.1, List.Forall₂.cons ?_ hrest.2⟩
    rcases hend with h | h
    · simp only [serve, h, if_true]
      exact GetTransactionHTML_ok env i.o s i.r id d hid hu hlive hH
    · simp only [serve, h]
      exact GetTransactionJS_ok env i.o s i.r id d hid hu hlive hJ

theorem presentation_is_repeatable_witness :
    run sampleEnv sampleStore [pageCall, scriptCall, pageCall] = sampleStore ∧
      List.Forall₂
        (fun i res => res.status = 200 ∧
          res.contentType =
            (if i.endpoint = .html then "text/html" else "application/javascript"))
        [pageCall, scriptCall, pageCall]
        (responses sampleEnv sampleStore [pageCall, scriptCall, pageCall]) :=
  (presentation_is_repeatable sampleEnv sampleStore).2 sampleID sampleDoc (by decide) rfl rfl
    [pageCall, scriptCall, pageCall] (by decide)

/-! ## Deleted is absorbing -/

theorem Delete_keeps_deleted (u : Bool) (s : Store) (k id : ObjectID)
    (h : s.slot id = .deleted) : (Delete u s k).2.slot id = .deleted := by
  rcases Delete_store_cases u s k with e | ⟨e, _, _⟩
  · rw [e]; exact h
  · rw [e]
    simp only [Store.set]
    split <;> simp [h]

theorem CreateTransaction_keeps_deleted (env : Env) (o : Outcomes) (s : Store) (r : Request)
    (id : ObjectID) (h : s.slot id = .deleted) :
    (CreateTransaction env o s r).store.slot id = .deleted := by
  unfold CreateTransaction
  split
  · exact h
  · split
    · exact h
    · rename_i input _
      dsimp only
      rcases hi : Insert o.insert s (Create o.now input) with ⟨res, s1⟩
      cases res with
      | error e =>
        have : s1 = s := by
          unfold Insert InsertOne at hi
          cases ho : o.insert with
          | unreachable => rw [ho] at hi; simp at hi; exact hi.2.symm
          | reached fresh =>
            rw [ho] at hi
            simp only [Create_IsZero, if_true] at hi
            cases hs : s.slot fresh <;> rw [hs] at hi <;> simp at hi
            · exact hi.2.symm
            · exact hi.2.symm
        simp only [this]
        exact h
      | ok k =>
        obtain ⟨_, hk, rfl⟩ := Insert_Create_ok o.now input o.insert s s1 k hi
        have hne : id ≠ k := by
          rintro rfl
          rw [h] at hk
          exact Slot.noConfusion hk
        simp [Store.set, hne, h]

theorem PostTransaction_keeps_deleted (env : Env) (o : Outcomes) (s : Store) (r : Request)
    (id : ObjectID) (h : s.slot id = .deleted) :
    (PostTransaction env o s r).store.slot id = .deleted := by
  unfold PostTransaction
  split
  · exact h
  · split
    · exact h
    · exact Delete_keeps_deleted _ s _ id h

theorem serve_keeps_deleted (env : Env) (s : Store) (i : Invocation) (id : ObjectID)
    (h : s.slot id = .deleted) : (serve env s i).store.slot id = .deleted := by
  unfold serve
  cases i.endpoint with
  | create => exact CreateTransaction_keeps_deleted env i.o s i.r id h
  | post => exact PostTransaction_keeps_deleted env i.o s i.r id h
  | html => simp only [GetTransactionHTML_store]; exact h
  | js => simp only [GetTransactionJS_store]; exact h

theorem run_keeps_deleted (env : Env) (later : List Invocation) :
    ∀ (s : Store) (id : ObjectID), s.slot id = .deleted → (run env s later).slot id = .deleted := by
  induction later with
  | nil => intro s id h; exact h
  | cons i rest ih =>
    intro s id h
    exact ih _ id (serve_keeps_deleted env s i id h)

theorem GetByID_deleted (u : Bool) (s : Store) (id : ObjectID) (h : s.slot id = .deleted) :
    GetByID u s id = .error (if u then .unreachable else .noDocuments) := by
  cases u <;> simp [GetByID, FindOne, h]

theorem Delete_deleted (u : Bool) (s : Store) (id : ObjectID) (h : s.slot id = .deleted) :
    Delete u s id = (.error (if u then .unreachable else .notDeleted), s) := by
  cases u <;> simp [Delete, DeleteOne, h]

theorem PostTransaction_deletes (env : Env) (o : Outcomes) (s : Store) (r : Request)
    (id : ObjectID) (transaction : Transaction)
    (hid : ObjectIDFromHex (r.Var "transaction_id") = some id)
    (hfound : GetByID o.findUnreachable s id = .ok transaction)
    (hdel : (Delete o.deleteUnreachable s id).1 = .ok ()) :
    (PostTransaction env o s r).store.slot id = .deleted := by
  have hID := GetByID_ID hfound
  have hst : (PostTransaction env o s r).store = (Delete o.deleteUnreachable s id).2 := by
    simp [PostTransaction, hid, hfound, hID]
  rw [hst]
  obtain ⟨_, d, hd, _⟩ := (GetByID_ok_iff _ _ _ _).mp hfound
  cases hou : o.deleteUnreachable
  · rw [Delete_live s id d hd]
    simp [Store.set]
  · rw [hou] at hdel
    simp [Delete, DeleteOne] at hdel

/-- C3: deleted is absorbing. After a PostTransaction call that found the
record for an id and deleted it, and after any further sequence of requests to
the four handlers with any outcomes, every GetByID and every Delete for that id
returns an error, GetTransactionHTML, GetTransactionJS and PostTransaction for
that id respond 400, and such a PostTransaction makes no external call but the
lookup: no webhook is dispatched and no deletion attempted. -/
theorem deleted_is_absorbing (env : Env) (o : Outcomes) (s : Store) (r : Request)
    (id : ObjectID) (transaction : Transaction)
    (hid : ObjectIDFromHex (r.Var "transaction_id") = some id)
    (hfound : GetByID o.findUnreachable s id = .ok transaction)
    (hdel : (Delete o.deleteUnreachable s id).1 = .ok ())
    (later : List Invocation) (o2 : Outcomes) (r2 : Request)
    (hid2 : ObjectIDFromHex (r2.Var "transaction_id") = some id) :
    (∃ e, GetByID o2.findUnreachable
        (run env (PostTransaction env o s r).store later) id = .error e) ∧
      (∃ e, (Delete o2.deleteUnreachable
        (run env (PostTransaction env o s r).store later) id).1 = .error e) ∧
      (GetTransactionHTML env o2 (run env (PostTransaction env o s r).store later) r2).status
        = 400 ∧
      (GetTransactionJS env o2 (run env (PostTransaction env o s r).store later) r2).status
        = 400 ∧
      (PostTransaction env o2 (run env (PostTransaction env o s r).store later) r2).status
        = 400 ∧
      (PostTransaction env o2 (run env (PostTransaction env o s r).store later) r2).effects
        = [.findOne id] := by
  have h1 := PostTransaction_deletes env o s r id transaction hid hfound hdel
  have h2 := run_keeps_deleted env later _ id h1
  generalize run env (PostTransaction env o s r).store later = s2 at h2 ⊢
  have hg := GetByID_deleted o2.findUnreachable _ id h2
  refine ⟨⟨_, hg⟩, ⟨_, by rw [Delete_deleted _ _ id h2]⟩, ?_, ?_, ?_, ?_⟩
  · unfold GetTransactionHTML
    rw [hid2]
    simp only [hg]
    rfl
  · unfold GetTransactionJS
    rw [hid2]
    simp only [hg]
    rfl
  · unfold PostTransaction
    rw [hid2]
    simp only [hg]
    rfl
  · unfold PostTransaction
    rw [hid2]
    simp only [hg]

theorem deleted_is_absorbing_witness :
    (∃ e, GetByID sampleOutcomes.findUnreachable
        (run sampleEnv (PostTransaction sampleEnv sampleOutcomes sampleStore sampleRequest).store
          [createCall, pageCall, postCall, scriptCall]) sampleID = .error e) ∧
      (∃ e, (Delete sampleOutcomes.deleteUnreachable
        (run sampleEnv (PostTransaction sampleEnv sampleOutcomes sampleStore sampleRequest).store
          [createCall, pageCall, postCall, scriptCall]) sampleID).1 = .error e) ∧
      (GetTransactionHTML sampleEnv sampleOutcomes
        (run sampleEnv (PostTransaction sampleEnv sampleOutcomes sampleStore sampleRequest).store
          [createCall, pageCall, postCall, scriptCall]) sampleRequest).status = 400 ∧
      (GetTransactionJS sampleEnv sampleOutcomes
        (run sampleEnv (PostTransaction sampleEnv sampleOutcomes sampleStore sampleRequest).store
          [createCall, pageCall, postCall, scriptCall]) sampleRequest).status = 400 ∧
      (PostTransaction sampleEnv sampleOutcomes
        (run sampleEnv (PostTransaction sampleEnv sampleOutcomes sampleStore sampleRequest).store
          [createCall, pageCall, postCall, scriptCall]) sampleRequest).status = 400 ∧
      (PostTransaction sampleEnv sampleOutcomes
        (run sampleEnv (PostTransaction sampleEnv sampleOutcomes sampleStore sampleRequest).store
          [createCall, pageCall, postCall, scriptCall]) sampleRequest).effects =
        [.findOne sampleID] :=
  deleted_is_absorbing sampleEnv sampleOutcomes sampleStore sampleRequest sampleID
    { ID := sampleID, Amount := sampleAmount, WebhookURL := "https://merchant.example/hook",
      WebhookKey := "k", RedirectURL := "https://shop.example/done", Timestamp := 0 }
    (by decide) rfl rfl [createCall, pageCall, postCall, scriptCall] sampleOutcomes sampleRequest
    (by decide)

/-! ## The context of the outbound call -/

/-- C11 (as stated, refuted): in the completion of the stored sample
transaction, the one outbound request is bound to the background context, not
to the inbound one, and it is not given up when the inbound request is
cancelled or times out. -/
theorem outbound_call_ignores_inbound_context :
    (PostTransaction sampleEnv sampleOutcomes sampleStore sampleRequest).effects =
        [.findOne sampleID,
         .httpDo
           { Method := "POST"
             URL := "https://merchant.example/hook"
             Header := [("Authorization", "Bearer k"), ("Content-Type", "application/json")]
             Body := [("status", "Success")]
             Ctx := .background } true,
         .deleteOne sampleID] ∧
      Context.background ≠ Context.inbound ∧
      OutboundRequest.aborted
        { Method := "POST"
          URL := "https://merchant.example/hook"
          Header := [("Authorization", "Bearer k"), ("Content-Type", "application/json")]
          Body := [("status", "Success")]
          Ctx := .background } true = false := by
  decide

/-- C11 (amended): for every transaction that PostTransaction finds and for
which the outbound request can be built, every outbound request it issues is
bound to the background context, so the call is not given up on account of the
inbound request, whether that one is cancelled, has timed out, or neither. -/
theorem outbound_call_in_background (env : Env) (o : Outcomes) (s : Store) (r : Request)
    (id : ObjectID) (transaction : Transaction)
    (hid : ObjectIDFromHex (r.Var "transaction_id") = some id)
    (hfound : GetByID o.findUnreachable s id = .ok transaction)
    (hreq : (NewRequest env "POST" transaction.WebhookURL [("status", "Success")]).isSome = true) :
    (∃ req flag, Effect.httpDo req flag ∈ (PostTransaction env o s r).effects) ∧
      ∀ req flag, Effect.httpDo req flag ∈ (PostTransaction env o s r).effects →
        req.Ctx = .background ∧ ∀ inboundDone, req.aborted inboundDone = false := by
  obtain ⟨req0, h0⟩ := Option.isSome_iff_exists.mp hreq
  have hn := (notify_of_request env o r transaction req0 h0).2
  have hID := GetByID_ID hfound
  have h1 := NewRequest_some _ _ _ _ _ h0
  subst h1
  have heff : (PostTransaction env o s r).effects =
      [.findOne id,
       .httpDo
         { Method := "POST"
           URL := transaction.WebhookURL
           Header := [("Authorization", "Bearer " ++ transaction.WebhookKey),
                      ("Content-Type", "application/json")]
           Body := [("status", "Success")]
           Ctx := .background } true,
       .deleteOne id] := by
    simp only [PostTransaction, hid, hfound, hn, hID]
    simp [HeaderMap.Set]
  rw [heff]
  refine ⟨⟨_, true, List.mem_cons_of_mem _ (List.mem_cons_self _ _)⟩, ?_⟩
  intro req flag hmem
  simp at hmem
  obtain ⟨rfl, _⟩ := hmem
  exact ⟨rfl, fun _ => rfl⟩

theorem outbound_call_in_background_witness :
    (∃ req flag, Effect.httpDo req flag ∈
        (PostTransaction sampleEnv sampleOutcomes sampleStore sampleRequest).effects) ∧
      ∀ req flag, Effect.httpDo req flag ∈
          (PostTransaction sampleEnv sampleOutcomes sampleStore sampleRequest).effects →
        req.Ctx = .background ∧ ∀ inboundDone, req.aborted inboundDone = false :=
  outbound_call_in_background sampleEnv sampleOutcomes sampleStore sampleRequest sampleID
    { ID := sampleID, Amount := sampleAmount, WebhookURL := "https://merchant.example/hook",
      WebhookKey := "k", RedirectURL := "https://shop.example/done", Timestamp := 0 }
    (by decide) rfl (by decide)

/-! ## The statuses of the error kinds -/

/-- C12 (as stated, refuted): a malformed identifier (InvalidInput) and a
well-formed identifier without a record (NotFound) are both answered 400, and
a failed insert (StoreError) and a failed rendering (RenderError) are both
answered 500. -/
theorem error_kinds_share_statuses :
    (¬ IsHexID (shortIDRequest.Var "transaction_id") ∧
        (GetTransactionHTML sampleEnv sampleOutcomes Store.empty shortIDRequest).status = 400) ∧
      (IsHexID (sampleRequest.Var "transaction_id") ∧
        Store.empty.slot sampleID = .unused ∧
        (GetTransactionHTML sampleEnv sampleOutcomes Store.empty sampleRequest).status = 400) ∧
      ((Insert unreachableOutcomes.insert Store.empty
            (Create unreachableOutcomes.now sampleInput)).1 = .error .unreachable ∧
        (CreateTransaction sampleEnv unreachableOutcomes Store.empty createRequest).status
          = 500) ∧
      ((failingEnv.t.HTML "transaction.html" (.page sampleAmount sampleID.Hex)).failed = true ∧
        (GetTransactionHTML failingEnv sampleOutcomes sampleStore sampleRequest).status = 500) :=
  ⟨⟨by decide, by decide⟩, ⟨by decide, by decide, by decide⟩, ⟨rfl, by decide⟩,
    ⟨by decide, by decide⟩⟩

theorem GetByID_not_live (u : Bool) (s : Store) (id : ObjectID)
    (h : (∀ d, s.slot id ≠ .live d) ∨ u = true) :
    GetByID u s id = .error (if u then .unreachable else .noDocuments) := by
  cases u with
  | true => simp [GetByID, FindOne]
  | false =>
    rcases h with h | h
    · cases hs : s.slot id with
      | live d => exact absurd hs (h d)
      | unused => simp [GetByID, FindOne, hs]
      | deleted => simp [GetByID, FindOne, hs]
    · simp at h

/-- C12 (amended): the five kinds are answered with three statuses.
Unauthorized (the Authorization header is not the configured bearer
credential) is answered 401. InvalidInput (an authorized creation whose body
does not decode; an identifier that is not well-formed) is answered 400.
NotFound (a well-formed identifier with no live record) is answered 400, and so
is a lookup that cannot reach the store. StoreError on creation (the insert
fails) is answered 500. RenderError (the template fails before it writes) is
answered 500. -/
theorem error_kind_statuses (env : Env) (o : Outcomes) (s : Store) (r : Request) :
    (r.Header.Get "Authorization" ≠ "Bearer " ++ env.API_KEY →
        (CreateTransaction env o s r).status = 401) ∧
      (r.Header.Get "Authorization" = "Bearer " ++ env.API_KEY → UndecodableBody r.Body →
        (CreateTransaction env o s r).status = 400) ∧
      (¬ IsHexID (r.Var "transaction_id") →
        (GetTransactionHTML env o s r).status = 400 ∧
        (GetTransactionJS env o s r).status = 400 ∧
        (PostTransaction env o s r).status = 400) ∧
      (∀ id, ObjectIDFromHex (r.Var "transaction_id") = some id →
        ((∀ d, s.slot id ≠ .live d) ∨ o.findUnreachable = true) →
        (GetTransactionHTML env o s r).status = 400 ∧
        (GetTransactionJS env o s r).status = 400 ∧
        (PostTransaction env o s r).status = 400) ∧
      (∀ input e, r.Header.Get "Authorization" = "Bearer " ++ env.API_KEY →
        Decode r.Body = some input →
        (Insert o.insert s (Create o.now input)).1 = .error e →
        (CreateTransaction env o s r).status = 500) ∧
      (∀ id transaction, ObjectIDFromHex (r.Var "transaction_id") = some id →
        GetByID o.findUnreachable s id = .ok transaction →
        (env.t.HTML "transaction.html" (.page transaction.Amount transaction.ID.Hex)
          = ⟨[], true⟩ →
          (GetTransactionHTML env o s r).status = 500) ∧
        (env.t.JS "transaction.js" (.script transaction.ID.Hex) = ⟨[], true⟩ →
          (GetTransactionJS env o s r).status = 500)) := by
  refine ⟨?_, ?_, ?_, ?_, ?_, ?_⟩
  · intro h
    unfold CreateTransaction
    rw [if_pos h]
    rfl
  · intro hauth hbad
    have hn : ¬ (r.Header.Get "Authorization" ≠ "Bearer " ++ env.API_KEY) :=
      fun hne => hne hauth
    have hd := (Decode_eq_none_iff r.Body).mpr hbad
    unfold CreateTransaction
    rw [if_neg hn, hd]
    rfl
  · intro hbad
    have h := (ObjectIDFromHex_eq_none_iff _).mpr hbad
    refine ⟨?_, ?_, ?_⟩
    · unfold GetTransactionHTML; rw [h]; rfl
    · unfold GetTransactionJS; rw [h]; rfl
    · unfold PostTransaction; rw [h]; rfl
  · intro id hid hno
    have hg := GetByID_not_live o.findUnreachable s id hno
    refine ⟨?_, ?_, ?_⟩
    · unfold GetTransactionHTML; rw [hid]; simp only [hg]; rfl
    · unfold GetTransactionJS; rw [hid]; simp only [hg]; rfl
    · unfold PostTransaction; rw [hid]; simp only [hg]; rfl
  · intro input e hauth hdec hins
    have hn : ¬ (r.Header.Get "Authorization" ≠ "Bearer " ++ env.API_KEY) :=
      fun hne => hne hauth
    unfold CreateTransaction
    rw [if_neg hn, hdec]
    rcases hi : Insert o.insert s (Create o.now input) with ⟨res, s1⟩
    rw [hi] at hins
    simp only at hins
    subst hins
    simp only [hi]
    rfl
  · intro id transaction hid hfound
    constructor
    · intro hfail
      unfold GetTransactionHTML
      rw [hid]
      simp only [hfound, RenderHTML, ExecuteTemplate, hfail]
      rfl
    · intro hfail
      unfold GetTransactionJS
      rw [hid]
      simp only [hfound, RenderJS, ExecuteTemplate, hfail]
      rfl

theorem error_kind_statuses_witness :
    (CreateTransaction sampleEnv sampleOutcomes sampleStore wrongKeyRequest).status = 401 ∧
      (CreateTransaction sampleEnv sampleOutcomes sampleStore stringBodyRequest).status = 400 ∧
      ((GetTransactionHTML sampleEnv sampleOutcomes sampleStore shortIDRequest).status = 400 ∧
        (GetTransactionJS sampleEnv sampleOutcomes sampleStore shortIDRequest).status = 400 ∧
        (PostTransaction sampleEnv sampleOutcomes sampleStore shortIDRequest).status = 400) ∧
      ((GetTransactionHTML sampleEnv sampleOutcomes Store.empty sampleRequest).status = 400 ∧
        (GetTransactionJS sampleEnv sampleOutcomes Store.empty sampleRequest).status = 400 ∧
        (PostTransaction sampleEnv sampleOutcomes Store.empty sampleRequest).status = 400) ∧
      (CreateTransaction sampleEnv unreachableOutcomes Store.empty createRequest).status = 500 ∧
      (GetTransactionHTML failingEnv sampleOutcomes sampleStore sampleRequest).status = 500 ∧
      (GetTransactionJS failingEnv sampleOutcomes sampleStore sampleRequest).status = 500 :=
  ⟨(error_kind_statuses sampleEnv sampleOutcomes sampleStore wrongKeyRequest).1 (by decide),
    (error_kind_statuses sampleEnv sampleOutcomes sampleStore stringBodyRequest).2.1
      (by decide) (Or.inr trivial),
    (error_kind_statuses sampleEnv sampleOutcomes sampleStore shortIDRequest).2.2.1 (by decide),
    (error_kind_statuses sampleEnv sampleOutcomes Store.empty sampleRequest).2.2.2.1 sampleID
      (by decide) (Or.inl (fun d h => Slot.noConfusion h)),
    (error_kind_statuses sampleEnv unreachableOutcomes Store.empty createRequest).2.2.2.2.1
      sampleInput .unreachable (by decide) (by decide) rfl,
    ((error_kind_statuses failingEnv sampleOutcomes sampleStore sampleRequest).2.2.2.2.2
      sampleID
      { ID := sampleID, Amount := sampleAmount, WebhookURL := "https://merchant.example/hook",
        WebhookKey := "k", RedirectURL := "https://shop.example/done", Timestamp := 0 }
      (by decide) rfl).1 rfl,
    ((error_kind_statuses failingEnv sampleOutcomes sampleStore sampleRequest).2.2.2.2.2
      sampleID
      { ID := sampleID, Amount := sampleAmount, WebhookURL := "https://merchant.example/hook",
        WebhookKey := "k", RedirectURL := "https://shop.example/done", Timestamp := 0 }
      (by decide) rfl).2 rfl⟩

/-! ## Two completions at once -/

/-- The three steps of one call, taken one after the other with no other call
in between, are PostTransaction. -/
theorem PostTransaction_steps (env : Env) (o : Outcomes) (r : Request) (s : Store) :
    Race.run env o o r r ⟨s, .start, .start⟩ [.A, .A, .A] =
      ⟨(PostTransaction env o s r).store,
        .returned (PostTransaction env o s r).w (PostTransaction env o s r).effects
          (PostTransaction env o s r).logs, .start⟩ := by
  simp only [Race.run, List.foldl, Race.step]
  unfold PostTransaction
  cases hid : ObjectIDFromHex (r.Var "transaction_id") with
  | none => simp [PostTransaction.step, hid]
  | some id =>
    cases hg : GetByID o.findUnreachable s id with
    | error e => simp [PostTransaction.step, hid, hg]
    | ok t => simp [PostTransaction.step, hid, hg]

/-- C13: for every stored transaction for which the outbound request can be
built, and two PostTransaction calls for its id whose lookups reach the store,
in the schedule where both lookups come before either deletion both calls find
the record, each makes the outbound call to the webhook of that one
transaction (two dispatches in all), each attempts the deletion, and both
respond 303 with the redirect address. -/
theorem two_completions_dispatch_twice (env : Env) (oA oB : Outcomes) (s : Store)
    (rA rB : Request) (id : ObjectID) (d : Document)
    (hA : ObjectIDFromHex (rA.Var "transaction_id") = some id)
    (hB : ObjectIDFromHex (rB.Var "transaction_id") = some id)
    (hlive : s.slot id = .live d)
    (hfA : oA.findUnreachable = false) (hfB : oB.findUnreachable = false)
    (hreq : (NewRequest env "POST" d.webhook_url [("status", "Success")]).isSome = true) :
    (Race.run env oA oB rA rB ⟨s, .start, .start⟩ [.A, .B]).a =
        .found id
          { ID := id, Amount := d.amount, WebhookURL := d.webhook_url,
            WebhookKey := d.webhook_key, RedirectURL := d.redirect_url,
            Timestamp := d.timestamp } ∧
      (Race.run env oA oB rA rB ⟨s, .start, .start⟩ [.A, .B]).b =
        .found id
          { ID := id, Amount := d.amount, WebhookURL := d.webhook_url,
            WebhookKey := d.webhook_key, RedirectURL := d.redirect_url,
            Timestamp := d.timestamp } ∧
      (Race.run env oA oB rA rB ⟨s, .start, .start⟩ [.A, .B]).store = s ∧
      (Race.run env oA oB rA rB ⟨s, .start, .start⟩ lookupsFirst).a.effects =
        [.findOne id,
         .httpDo
           { Method := "POST"
             URL := d.webhook_url
             Header := [("Authorization", "Bearer " ++ d.webhook_key),
                        ("Content-Type", "application/json")]
             Body := [("status", "Success")]
             Ctx := .background } true,
         .deleteOne id] ∧
      (Race.run env oA oB rA rB ⟨s, .start, .start⟩ lookupsFirst).b.effects =
        (Race.run env oA oB rA rB ⟨s, .start, .start⟩ lookupsFirst).a.effects ∧
      countHttpDo
        ((Race.run env oA oB rA rB ⟨s, .start, .start⟩ lookupsFirst).a.effects ++
          (Race.run env oA oB rA rB ⟨s, .start, .start⟩ lookupsFirst).b.effects) = 2 ∧
      (Race.run env oA oB rA rB ⟨s, .start, .start⟩ lookupsFirst).a.response =
        some (redirectUser ResponseWriter.fresh d.redirect_url) ∧
      (Race.run env oA oB rA rB ⟨s, .start, .start⟩ lookupsFirst).b.response =
        some (redirectUser ResponseWriter.fresh d.redirect_url) ∧
      (redirectUser ResponseWriter.fresh d.redirect_url).Code = 303 := by
  obtain ⟨req0, h0⟩ := Option.isSome_iff_exists.mp hreq
  have h1 := NewRequest_some _ _ _ _ _ h0
  subst h1
  have hg := GetByID_live s id d hlive
  have hnA := notify_of_request env oA rA
    { ID := id, Amount := d.amount, WebhookURL := d.webhook_url, WebhookKey := d.webhook_key,
      RedirectURL := d.redirect_url, Timestamp := d.timestamp } _ h0
  have hnB := notify_of_request env oB rB
    { ID := id, Amount := d.amount, WebhookURL := d.webhook_url, WebhookKey := d.webhook_key,
      RedirectURL := d.redirect_url, Timestamp := d.timestamp } _ h0
  simp only [Race.run, lookupsFirst, List.foldl, Race.step, PostTransaction.step, hA, hB, hfA,
    hfB, hg, hnA.1, hnA.2, hnB.1, hnB.2, PostPhase.effects, PostPhase.response]
  refine ⟨trivial, trivial, trivial, ?_, ?_, ?_, trivial, trivial, rfl⟩
  · simp [HeaderMap.Set]
  · simp [HeaderMap.Set]
  · simp [countHttpDo, HeaderMap.Set]

theorem two_completions_dispatch_twice_witness :
    (Race.run sampleEnv sampleOutcomes sampleOutcomes sampleRequest sampleRequest
        ⟨sampleStore, .start, .start⟩ [.A, .B]).a =
        .found sampleID
          { ID := sampleID, Amount := sampleDoc.amount, WebhookURL := sampleDoc.webhook_url,
            WebhookKey := sampleDoc.webhook_key, RedirectURL := sampleDoc.redirect_url,
            Timestamp := sampleDoc.timestamp } ∧
      (Race.run sampleEnv sampleOutcomes sampleOutcomes sampleRequest sampleRequest
        ⟨sampleStore, .start, .start⟩ [.A, .B]).b =
        .found sampleID
          { ID := sampleID, Amount := sampleDoc.amount, WebhookURL := sampleDoc.webhook_url,
            WebhookKey := sampleDoc.webhook_key, RedirectURL := sampleDoc.redirect_url,
            Timestamp := sampleDoc.timestamp } ∧
      (Race.run sampleEnv sampleOutcomes sampleOutcomes sampleRequest sampleRequest
        ⟨sampleStore, .start, .start⟩ [.A, .B]).store = sampleStore ∧
      (Race.run sampleEnv sampleOutcomes sampleOutcomes sampleRequest sampleRequest
        ⟨sampleStore, .start, .start⟩ lookupsFirst).a.effects =
        [.findOne sampleID,
         .httpDo
           { Method := "POST"
             URL := sampleDoc.webhook_url
             Header := [("Authorization", "Bearer " ++ sampleDoc.webhook_key),
                        ("Content-Type", "application/json")]
             Body := [("status", "Success")]
             Ctx := .background } true,
         .deleteOne sampleID] ∧
      (Race.run sampleEnv sampleOutcomes sampleOutcomes sampleRequest sampleRequest
        ⟨sampleStore, .start, .start⟩ lookupsFirst).b.effects =
        (Race.run sampleEnv sampleOutcomes sampleOutcomes sampleRequest sampleRequest
          ⟨sampleStore, .start, .start⟩ lookupsFirst).a.effects ∧
      countHttpDo
        ((Race.run sampleEnv sampleOutcomes sampleOutcomes sampleRequest sampleRequest
            ⟨sampleStore, .start, .start⟩ lookupsFirst).a.effects ++
          (Race.run sampleEnv sampleOutcomes sampleOutcomes sampleRequest sampleRequest
            ⟨sampleStore, .start, .start⟩ lookupsFirst).b.effects) = 2 ∧
      (Race.run sampleEnv sampleOutcomes sampleOutcomes sampleRequest sampleRequest
        ⟨sampleStore, .start, .start⟩ lookupsFirst).a.response =
        some (redirectUser ResponseWriter.fresh sampleDoc.redirect_url) ∧
      (Race.run sampleEnv sampleOutcomes sampleOutcomes sampleRequest sampleRequest
        ⟨sampleStore, .start, .start⟩ lookupsFirst).b.response =
        some (redirectUser ResponseWriter.fresh sampleDoc.redirect_url) ∧
      (redirectUser ResponseWriter.fresh sampleDoc.redirect_url).Code = 303 :=
  two_completions_dispatch_twice sampleEnv sampleOutcomes sampleOutcomes sampleStore
    sampleRequest sampleRequest sampleID sampleDoc (by decide) (by decide) (by decide) rfl rfl
    (by decide)

/-! ## Responses and the webhook credentials -/

theorem notify_response (env : Env) (o : Outcomes) (r : Request) (t : Transaction) :
    (PostTransaction.notify env o r t).1 =
      if (NewRequest env "POST" t.WebhookURL [("status", "Success")]).isSome = true then
        redirectUser ResponseWriter.fresh t.RedirectURL
      else
        httpError ResponseWriter.fresh "Failed to construct update request"
          StatusInternalServerError := by
  cases h : NewRequest env "POST" t.WebhookURL [("status", "Success")] with
  | some req0 =>
    simp only [Option.isSome_some, if_true]
    exact (notify_of_request env o r t req0 h).1
  | none =>
    unfold PostTransaction.notify
    simp [Marshal, h]

/-- C14 (as stated, refuted): two stored transactions that differ only in
webhook_url, one with an address that parses and one with an address that ends
in a line feed, get different responses from PostTransaction: 303 with the
redirect address, and 500. -/
theorem completion_response_depends_on_webhook_url :
    lineFeedDoc = { sampleDoc with webhook_url := "https://merchant.example/hook\n" } ∧
      (PostTransaction sampleEnv sampleOutcomes sampleStore sampleRequest).w =
        redirectUser ResponseWriter.fresh "https://shop.example/done" ∧
      (PostTransaction sampleEnv sampleOutcomes lineFeedStore sampleRequest).w =
        httpError ResponseWriter.fresh "Failed to construct update request" 500 ∧
      (PostTransaction sampleEnv sampleOutcomes sampleStore sampleRequest).w ≠
        (PostTransaction sampleEnv sampleOutcomes lineFeedStore sampleRequest).w := by
  decide

/-- C14 (amended): the data GetTransactionHTML hands to the renderer is exactly
(amount, hex id), the data GetTransactionJS hands to it is exactly (hex id),
and the response of a PostTransaction whose outbound request can be built is
the redirect with redirect_url alone. So for any two stores whose records for
an id differ only in webhook_url, webhook_key or timestamp, GetTransactionHTML
and GetTransactionJS give identical responses, and PostTransaction gives
identical responses whenever the outbound request can be built for both
records or for neither. -/
theorem responses_ignore_webhook_credentials (env : Env) (o : Outcomes) (r : Request)
    (id : ObjectID) (s1 s2 : Store) (d1 d2 : Document)
    (hid : ObjectIDFromHex (r.Var "transaction_id") = some id)
    (h1 : s1.slot id = .live d1) (h2 : s2.slot id = .live d2)
    (hamount : d1.amount = d2.amount) (hredirect : d1.redirect_url = d2.redirect_url) :
    (o.findUnreachable = false →
        (GetTransactionHTML env o s1 r).w =
          (match RenderHTML env.t (ResponseWriter.fresh.SetHeader "Content-Type" "text/html")
              "transaction.html" (.page d1.amount id.Hex) with
           | (w2, true) =>
             httpError w2 "Failed to render HTML template" StatusInternalServerError
           | (w2, false) => w2) ∧
        (GetTransactionJS env o s1 r).w =
          (match RenderJS env.t
              (ResponseWriter.fresh.SetHeader "Content-Type" "application/javascript")
              "transaction.js" (.script id.Hex) with
           | (w2, true) => httpError w2 "Failed to render JS template" StatusInternalServerError
           | (w2, false) => w2) ∧
        ((NewRequest env "POST" d1.webhook_url [("status", "Success")]).isSome = true →
          (PostTransaction env o s1 r).w = redirectUser ResponseWriter.fresh d1.redirect_url)) ∧
      (GetTransactionHTML env o s1 r).w = (GetTransactionHTML env o s2 r).w ∧
      (GetTransactionJS env o s1 r).w = (GetTransactionJS env o s2 r).w ∧
      ((NewRequest env "POST" d1.webhook_url [("status", "Success")]).isSome =
          (NewRequest env "POST" d2.webhook_url [("status", "Success")]).isSome →
        (PostTransaction env o s1 r).w = (PostTransaction env o s2 r).w) := by
  have hH : ∀ (s : Store) (d : Document), s.slot id = .live d →
      (GetTransactionHTML env o s r).w =
        if o.findUnreachable = true then
          httpError ResponseWriter.fresh "Failed to get transaction" StatusBadRequest
        else
          (match RenderHTML env.t (ResponseWriter.fresh.SetHeader "Content-Type" "text/html")
              "transaction.html" (.page d.amount id.Hex) with
           | (w2, true) =>
             httpError w2 "Failed to render HTML template" StatusInternalServerError
           | (w2, false) => w2) := by
    intro s d hs
    unfold GetTransactionHTML
    rw [hid]
    cases hu : o.findUnreachable with
    | true => simp [GetByID, FindOne]
    | false =>
      simp only [GetByID_live s id d hs]
      split <;> simp_all
  have hJ : ∀ (s : Store) (d : Document), s.slot id = .live d →
      (GetTransactionJS env o s r).w =
        if o.findUnreachable = true then
          httpError ResponseWriter.fresh "Failed to get transaction" StatusBadRequest
        else
          (match RenderJS env.t
              (ResponseWriter.fresh.SetHeader "Content-Type" "application/javascript")
              "transaction.js" (.script id.Hex) with
           | (w2, true) => httpError w2 "Failed to render JS template" StatusInternalServerError
           | (w2, false) => w2) := by
    intro s d hs
    unfold GetTransactionJS
    rw [hid]
    cases hu : o.findUnreachable with
    | true => simp [GetByID, FindOne]
    | false =>
      simp only [GetByID_live s id d hs]
      split <;> simp_all
  have hP : ∀ (s : Store) (d : Document), s.slot id = .live d →
      (PostTransaction env o s r).w =
        if o.findUnreachable = true then
          httpError ResponseWriter.fresh "Failed to get transaction" StatusBadRequest
        else if (NewRequest env "POST" d.webhook_url [("status", "Success")]).isSome = true then
          redirectUser ResponseWriter.fresh d.redirect_url
        else
          httpError ResponseWriter.fresh "Failed to construct update request"
            StatusInternalServerError := by
    intro s d hs
    unfold PostTransaction
    rw [hid]
    cases hu : o.findUnreachable with
    | true => simp [GetByID, FindOne]
    | false =>
      simp only [GetByID_live s id d hs, notify_response]
      simp
  refine ⟨?_, ?_, ?_, ?_⟩
  · intro hu
    refine ⟨?_, ?_, ?_⟩
    · rw [hH s1 d1 h1]; simp [hu]
    · rw [hJ s1 d1 h1]; simp [hu]
    · intro hb
      rw [hP s1 d1 h1]; simp [hu, hb]
  · rw [hH s1 d1 h1, hH s2 d2 h2, hamount]
  · rw [hJ s1 d1 h1, hJ s2 d2 h2]
  · intro hb
    rw [hP s1 d1 h1, hP s2 d2 h2, hb, hredirect]

theorem responses_ignore_webhook_credentials_witness :
    ((GetTransactionHTML sampleEnv sampleOutcomes sampleStore sampleRequest).w =
          (match RenderHTML sampleEnv.t
              (ResponseWriter.fresh.SetHeader "Content-Type" "text/html")
              "transaction.html" (.page sampleDoc.amount sampleID.Hex) with
           | (w2, true) =>
             httpError w2 "Failed to render HTML template" StatusInternalServerError
           | (w2, false) => w2) ∧
        (GetTransactionJS sampleEnv sampleOutcomes sampleStore sampleRequest).w =
          (match RenderJS sampleEnv.t
              (ResponseWriter.fresh.SetHeader "Content-Type" "application/javascript")
              "transaction.js" (.script sampleID.Hex) with
           | (w2, true) => httpError w2 "Failed to render JS template" StatusInternalServerError
           | (w2, false) => w2) ∧
        (PostTransaction sampleEnv sampleOutcomes sampleStore sampleRequest).w =
          redirectUser ResponseWriter.fresh sampleDoc.redirect_url) ∧
      (GetTransactionHTML sampleEnv sampleOutcomes sampleStore sampleRequest).w =
        (GetTransactionHTML sampleEnv sampleOutcomes otherWebhookStore sampleRequest).w ∧
      (GetTransactionJS sampleEnv sampleOutcomes sampleStore sampleRequest).w =
        (GetTransactionJS sampleEnv sampleOutcomes otherWebhookStore sampleRequest).w ∧
      (PostTransaction sampleEnv sampleOutcomes sampleStore sampleRequest).w =
        (PostTransaction sampleEnv sampleOutcomes otherWebhookStore sampleRequest).w :=
  have h := responses_ignore_webhook_credentials sampleEnv sampleOutcomes sampleRequest
    sampleID sampleStore otherWebhookStore sampleDoc otherWebhookDoc (by decide) (by decide)
    (by decide) rfl rfl
  ⟨⟨(h.1 rfl).1, (h.1 rfl).2.1, (h.1 rfl).2.2 (by decide)⟩, h.2.1, h.2.2.1,
    h.2.2.2 (by decide)⟩

end PaymentGate
